import Mathlib

/-!
Verification of the EU AI Act compliance analyzer core.

Shallow embedding of `src/analysis/compliance_analyzer.py`: the risk
classification cascade (`_determine_system_type_improved`), the post-hoc
override pass inside `analyze_compliance`, the score extractor
(`_extract_score`), the gap / recommendation synthesis
(`_identify_compliance_gaps`, `_generate_recommendations`), the prohibition
sub-analysis (`_analyze_prohibited_system`), and the orchestrator
(`analyze_compliance`).

Machine reals (Python floats) are modelled as `ℚ`; every score literal in
the source (`0.3`, `0.5`, `0.7`, thresholds, extracted scores of the shapes
`d.d`, `dd/100`, `d/10`) is exactly representable and ordered identically in
both number systems, so comparisons and the zero/mean arithmetic used by the
analyzer agree with float semantics.  The LLM (`self.llm.invoke`), the
semantic retriever and the prompt source (`get_prompt`, loaded from
`prompts.pdf` with fallbacks) are external collaborators; they are passed in
as function-valued fields of `ComplianceAnalyzer`, and an oracle invocation
that raises is modelled as `Except.error`.  Python exceptions that escape a
function are modelled with `Except`; `save_json` (pure persistence I/O) is
not modelled — `analyze_compliance` returns the results record it would have
persisted.

Regular expressions are embedded by a small backtracking matcher (`RE`,
`reMatches`) whose alternative order, greedy/lazy repetition order and
leftmost-search order mirror CPython's `re` backtracking, restricted to the
constructs actually used by the source patterns (literals, character
classes, `|`, `?`, greedy/lazy `*` and `+` over single-character atoms, one
capture group, `$`, positive lookahead).  Character classes such as `\s`,
`\w` and lowercasing are taken at their ASCII/Latin-1 meaning; all corpus
and response texts quantified over in concrete witnesses are ASCII.
-/

namespace EUAIAct

/-! ## Characters and Python string primitives (ASCII semantics) -/

/-- Python `str.lower` on an ASCII character. -/
def pyLowerChar (c : Char) : Char :=
  if 'A' ≤ c ∧ c ≤ 'Z' then Char.ofNat (c.toNat + 32) else c

/-- Python `str.lower`. -/
def pyLower (s : List Char) : List Char := s.map pyLowerChar

/-- `s.lower()` on a Python string, as a character list. -/
def strLower (s : String) : List Char := pyLower s.toList

/-- The characters matched by Python `\s` (ASCII/Latin-1 range). -/
def wsChars : List Char :=
  [' ', '\t', '\n', '\x0d', '\x0b', '\x0c', '\x1c', '\x1d', '\x1e', '\x1f', '\x85', '\xa0']

/-- Python `str.strip()` whitespace test (ASCII/Latin-1 range). -/
def isPySpace (c : Char) : Bool := wsChars.contains c

/-- Python `str.strip()`. -/
def pyStrip (s : List Char) : List Char :=
  ((s.dropWhile isPySpace).reverse.dropWhile isPySpace).reverse

/-- A character of Python `\w` (ASCII range: letters, digits, underscore). -/
def isWordChar (c : Char) : Bool := c.isAlpha || c.isDigit || c = '_'

/-- `"sep".join(parts)`. -/
def pyJoin (sep : String) (parts : List String) : String :=
  String.mk (List.intercalate sep.toList (parts.map String.toList))

/-- Case-aware character comparison: `ci = true` models `re.IGNORECASE`
(ASCII case folding, matching CPython on ASCII patterns). -/
def chrEq (ci : Bool) (a b : Char) : Bool :=
  if ci then pyLowerChar a == pyLowerChar b else a == b

/-- Match a literal character sequence at the head of the input, returning
the remainder. -/
def matchLit (ci : Bool) : List Char → List Char → Option (List Char)
  | [], inp => some inp
  | _ :: _, [] => none
  | p :: ps, c :: cs => if chrEq ci p c then matchLit ci ps cs else none

/-- Membership in a (possibly negated) character class. -/
def inClass (ci : Bool) (neg : Bool) (cs : List Char) (c : Char) : Bool :=
  if neg then !(cs.any (chrEq ci · c)) else cs.any (chrEq ci · c)

/-! ## A Python-`re` shaped backtracking matcher

Constructors cover exactly the regex features appearing in
`compliance_analyzer.py`.  Repetition is restricted to single-character
classes (`\s+`, `[^0-9]*`, `.*?`, `[^.]*`, `[•\-\*\d]+` are the only
repetitions in the source), which keeps the matcher structurally
terminating while reproducing CPython's backtracking order exactly:
alternatives left to right, greedy repetition longest first, lazy
repetition shortest first. -/

inductive RE where
  /-- A literal character sequence. -/
  | lit (s : List Char)
  /-- A character class `[cs]` (or `[^cs]` when `neg` is true); `.` with
  `re.DOTALL` is `cls true []`, `.` without `DOTALL` is `cls true ['\n']`. -/
  | cls (neg : Bool) (cs : List Char)
  | seq (a b : RE)
  | alt (a b : RE)
  /-- `X*` / `X*?` over a character class. -/
  | star (neg : Bool) (cs : List Char) (lazy : Bool)
  /-- Greedy `X+` over a character class. -/
  | plus (neg : Bool) (cs : List Char)
  /-- Greedy `X?`. -/
  | opt (a : RE)
  /-- A capture group `( … )`.  The source patterns never nest groups. -/
  | group (a : RE)
  /-- Zero-width positive lookahead `(?= … )`. -/
  | look (a : RE)
  /-- `$` without `re.MULTILINE`: end of input, or just before a final
  newline. -/
  | eostr
deriving Repr

/-- Remainders after consuming `0, 1, 2, …` class characters from the head,
in that (lazy) order; the list always starts with the whole input. -/
def classRemainders (ci neg : Bool) (cs : List Char) : List Char → List (List Char)
  | [] => [[]]
  | c :: rest =>
    if inClass ci neg cs c then (c :: rest) :: classRemainders ci neg cs rest
    else [c :: rest]

/-- All ways `re` can match a prefix of the input, as pairs of (remaining
input, captured group), in CPython backtracking preference order.  The head
of the list is the match `re.search`/`re.match` would select at this start
position. -/
def reMatches (ci : Bool) : RE → List Char → List (List Char × Option (List Char))
  | .lit s, inp =>
    match matchLit ci s inp with
    | some r => [(r, none)]
    | none => []
  | .cls _ _, [] => []
  | .cls neg cs, c :: rest => if inClass ci neg cs c then [(rest, none)] else []
  | .seq a b, inp =>
    (reMatches ci a inp).flatMap fun p =>
      (reMatches ci b p.1).map fun q => (q.1, p.2 <|> q.2)
  | .alt a b, inp => reMatches ci a inp ++ reMatches ci b inp
  | .star neg cs lazy, inp =>
    let rems := classRemainders ci neg cs inp
    ((if lazy then rems else rems.reverse).map fun r => (r, none))
  | .plus neg cs, inp =>
    (((classRemainders ci neg cs inp).drop 1).reverse.map fun r => (r, none))
  | .opt a, inp => reMatches ci a inp ++ [(inp, none)]
  | .group a, inp =>
    (reMatches ci a inp).map fun p =>
      (p.1, some (inp.take (inp.length - p.1.length)))
  | .look a, inp => if (reMatches ci a inp).isEmpty then [] else [(inp, none)]
  | .eostr, inp => if inp == [] || inp == ['\n'] then [(inp, none)] else []

/-- `re.search` scanning: the first start position (left to right) at which
the pattern matches; returns the captured group of the preferred match
(`some none` when the pattern has no group). -/
def searchFrom (ci : Bool) (re : RE) : List Char → Option (Option (List Char))
  | [] =>
    match reMatches ci re [] with
    | p :: _ => some p.2
    | [] => none
  | c :: rest =>
    match reMatches ci re (c :: rest) with
    | p :: _ => some p.2
    | [] => searchFrom ci re rest

/-- A searchable pattern: `bol = true` marks a pattern anchored with `^`
(without `re.MULTILINE` it can only match at the very start). -/
structure Pat where
  bol : Bool
  re : RE
deriving Repr

/-- Truth of `re.search(pattern, text) is not None`. -/
def reSearch (ci : Bool) (p : Pat) (inp : List Char) : Bool :=
  if p.bol then !(reMatches ci p.re inp).isEmpty
  else (searchFrom ci p.re inp).isSome

/-- `re.search` returning `match.group(1)`. -/
def searchGroup (ci : Bool) (re : RE) (inp : List Char) : Option (List Char) :=
  match searchFrom ci re inp with
  | some (some g) => some g
  | _ => none

/-! Convenience constructors for transcribing the source patterns. -/

/-- A literal from a string. -/
def rlit (s : String) : RE := RE.lit s.toList

/-- Sequencing a pattern list (empty = ε). -/
def rseq (l : List RE) : RE := l.foldr RE.seq (RE.lit [])

/-- Alternation `a|b|…` (left to right). -/
def ralt (a : RE) (l : List RE) : RE := l.foldl RE.alt a

/-- `\s+`. -/
def ws1 : RE := RE.plus false wsChars

/-- `\s*`. -/
def wsStar : RE := RE.star false wsChars false

/-- `.*?` without `re.DOTALL` (`.` excludes newline). -/
def dotLazy : RE := RE.star true ['\n'] true

/-- `.*?` with `re.DOTALL`. -/
def dotAllLazy : RE := RE.star true [] true

/-- `[0-9]` (also `\d`). -/
def digitChars : List Char := ['0', '1', '2', '3', '4', '5', '6', '7', '8', '9']

/-- The class `[0-9]`. -/
def rdigit : RE := RE.cls false digitChars

/-- `[^0-9]*` (greedy). -/
def nonDigitStar : RE := RE.star true digitChars false

/-- An unanchored searchable pattern. -/
def pat (re : RE) : Pat := ⟨false, re⟩

/-- A `^ … $`-anchored pattern (the source anchors always come in pairs,
e.g. `^prohibited$`). -/
def patAnchored (s : String) : Pat := ⟨true, RE.seq (rlit s) RE.eostr⟩

/-! ## Pattern library

Transcriptions of every regex constant in `compliance_analyzer.py`.  Capture
groups that the source never reads (the `(\s+)` and `(ai|assistant|agent)`
style groups inside indicator patterns, used only through boolean
`re.search`) are transcribed without `RE.group`, which does not change
whether a match exists. -/

/-- `analyze_compliance` lines 99–108: proof-phrases that force
`system_type = "prohibited"` in the override pass. -/
def prohibited_indicators : List Pat :=
  [ pat (rseq [rlit "social", ws1, rlit "credit", ws1, rlit "system"]),
    pat (rseq [rlit "citizen", ws1, rlit "rank"]),
    pat (rlit "citizenrank"),
    pat (rseq [rlit "evaluate", ws1, rlit "citizens", dotLazy, rlit "behavior", dotLazy, rlit "score"]),
    pat (rseq [rlit "score", dotLazy, rlit "determine", dotLazy, rlit "access", ws1, rlit "to", ws1, rlit "public", ws1, rlit "services"]),
    pat (rseq [rlit "score", dotLazy, rlit "travel", ws1, rlit "permission"]),
    pat (rseq [rlit "numerical", ws1, rlit "score", dotLazy, rlit "social", ws1, rlit "behavior"]),
    pat (rseq [rlit "government", dotLazy, rlit "scoring", dotLazy, rlit "citizen"]) ]

/-- `analyze_compliance` lines 121–127: medical phrases that force
`system_type = "high-risk"` in the override pass. -/
def medical_indicators : List Pat :=
  [ pat (rseq [rlit "medical", ws1, rlit "diagnosis"]),
    pat (rlit "mediscan"),
    pat (rseq [rlit "diagnostic", ws1, rlit "support", ws1, rlit "system"]),
    pat (rseq [rlit "medical", ws1, rlit "image", ws1, rlit "analysis"]),
    pat (rseq [rlit "clinical", ws1, rlit "decision"]) ]

/-- `analyze_compliance` lines 137–142: chatbot phrases that force
`system_type = "limited-risk"` in the override pass. -/
def chatbot_indicators : List Pat :=
  [ pat (rlit "chatbot"),
    pat (rlit "servicebot"),
    pat (rseq [rlit "customer", ws1, rlit "service", ws1, rlit "ai"]),
    pat (rseq [rlit "customer", ws1, rlit "support", ws1, rlit "assistant"]) ]

/-- `_determine_system_type_improved` lines 253–267: weighted social-scoring
indicators (Prohibited bucket of the heuristic pre-check). -/
def social_scoring_indicators : List (Pat × Nat) :=
  [ (pat (rseq [rlit "social", ws1, rlit "credit", ws1, rlit "system"]), 10),
    (pat (rseq [rlit "social", ws1, rlit "scoring", ws1, rlit "system"]), 10),
    (pat (rseq [rlit "citizen", ws1, rlit "score"]), 8),
    (pat (rseq [rlit "citizen", ws1, rlit "rank"]), 8),
    (pat (rlit "citizenrank"), 8),
    (pat (rseq [rlit "evaluate", ws1, rlit "citizens", dotLazy, rlit "behavior"]), 7),
    (pat (rseq [rlit "rate", ws1, rlit "citizens", ws1, rlit "based", ws1, rlit "on"]), 7),
    (pat (rseq [rlit "social", ws1, rlit "behavior", dotLazy, rlit "score"]), 7),
    (pat (rseq [rlit "score", dotLazy, rlit "public", ws1, rlit "services"]), 6),
    (pat (rseq [rlit "numerical", ws1, rlit "score", dotLazy, rlit "citizen"]), 6),
    (pat (rseq [rlit "access", ws1, rlit "based", ws1, rlit "on", ws1, rlit "score"]), 5),
    (pat (rseq [rlit "behavior", ws1, rlit "score"]), 5),
    (pat (rseq [rlit "travel", ws1, rlit "restriction", dotLazy, rlit "score"]), 8) ]

/-- `_determine_system_type_improved` lines 281–292: weighted limited-risk
(chatbot / customer-service) indicators. -/
def limited_risk_indicators : List (Pat × Nat) :=
  [ (pat (rlit "chatbot"), 5),
    (pat (rseq [rlit "customer", ws1, rlit "service", ws1,
       ralt (rlit "ai") [rlit "assistant", rlit "agent"]]), 6),
    (pat (rseq [rlit "customer", ws1, rlit "support", ws1,
       ralt (rlit "ai") [rlit "assistant", rlit "agent"]]), 6),
    (pat (rlit "servicebot"), 7),
    (pat (rseq [rlit "conversation", RE.opt (rlit "al"), ws1, rlit "ai"]), 5),
    (pat (rseq [rlit "virtual", ws1, rlit "assistant"]), 5),
    (pat (rseq [rlit "customer", ws1, rlit "interaction"]), 4),
    (pat (rseq [rlit "support", ws1, rlit "ticket"]), 4),
    (pat (rseq [rlit "customer", ws1, rlit "query"]), 4),
    (pat (rseq [rlit "help", ws1, rlit "desk", ws1, rlit "automation"]), 5) ]

/-- `_determine_system_type_improved` lines 305–317: weighted
product-recommendation (minimal-risk carve-out) indicators. -/
def product_recommender_indicators : List (Pat × Nat) :=
  [ (pat (rseq [rlit "product", ws1, rlit "recommendation", ws1, rlit "engine"]), 5),
    (pat (rseq [rlit "e-commerce", ws1, rlit "recommendation"]), 5),
    (pat (rseq [rlit "ecommerce", ws1, rlit "recommendation"]), 5),
    (pat (rseq [rlit "online", ws1, rlit "shopping", ws1, rlit "recommendation"]), 4),
    (pat (rseq [rlit "product", ws1, rlit "suggestion"]), 3),
    (pat (rseq [rlit "recommend", ws1, rlit "products"]), 4),
    (pat (rseq [rlit "shopping", ws1, rlit "experience"]), 2),
    (pat (rlit "shopsmart"), 6),
    (pat (rseq [rlit "personalized", ws1, rlit "recommendation"]), 3),
    (pat (rseq [rlit "you", ws1, rlit "might", ws1, ralt (rlit "also") [rlit "like"]]), 4),
    (pat (rseq [rlit "customers", ws1, rlit "who", ws1, rlit "bought", ws1, rlit "this"]), 5) ]

/-- `_determine_system_type_improved` lines 331–345: weighted high-risk
(medical / clinical) indicators. -/
def high_risk_indicators : List (Pat × Nat) :=
  [ (pat (rseq [rlit "medical", ws1, rlit "diagnosis"]), 8),
    (pat (rlit "mediscan"), 8),
    (pat (rseq [rlit "healthcare", ws1, rlit "decision"]), 7),
    (pat (rseq [rlit "diagnostic", ws1, rlit "support", ws1, rlit "system"]), 7),
    (pat (rseq [rlit "medical", ws1, rlit "image", ws1, rlit "analysis"]), 7),
    (pat (rseq [rlit "patient", ws1, rlit "data"]), 6),
    (pat (rseq [rlit "clinical", ws1, rlit "decision"]), 6),
    (pat (rlit "mri"), 5),
    (pat (rseq [rlit "ct", ws1, rlit "scan"]), 5),
    (pat (rlit "x-ray"), 5),
    (pat (rlit "radiologist"), 6),
    (pat (rlit "pathologist"), 6),
    (pat (rseq [rlit "medical", ws1, rlit "specialist"]), 6) ]

/-- Helper for the `classify\s+as\s+X` / `classification:\s+X` /
`^X$` / `this\s+is\s+a\s+X\s+system` pattern families of
`_determine_system_type_improved` lines 373–426. -/
def spaced (words : List String) : RE :=
  rseq (List.intercalate [ws1] (words.map fun w => [rlit w]))

/-- `_determine_system_type_improved` lines 373–426: layered
direct-statement patterns for parsing the LLM classification response, in
dictionary insertion order. -/
def classification_patterns : List (String × List Pat) :=
  [ ("prohibited",
     [ pat (spaced ["classify", "as", "prohibited"]),
       pat (rseq [rlit "classification:", ws1, rlit "prohibited"]),
       patAnchored "prohibited",
       pat (spaced ["this", "is", "a", "prohibited", "system"]),
       pat (spaced ["should", "be", "classified", "as", "prohibited"]),
       pat (spaced ["falls", "under", "prohibited"]),
       pat (rseq [rlit "article", ws1, rlit "5", dotLazy, rlit "prohibit"]),
       pat (rseq [rlit "social", ws1, rlit "scoring", dotLazy, rlit "prohibit"]),
       pat (rseq [rlit "social", ws1, rlit "credit", dotLazy, rlit "prohibit"]) ]),
    ("high-risk",
     [ pat (spaced ["classify", "as", "high-risk"]),
       pat (spaced ["classify", "as", "high", "risk"]),
       pat (rseq [rlit "classification:", ws1, rlit "high-risk"]),
       pat (rseq [rlit "classification:", ws1, spaced ["high", "risk"]]),
       patAnchored "high-risk",
       ⟨true, RE.seq (spaced ["high", "risk"]) RE.eostr⟩,
       pat (spaced ["this", "is", "a", "high-risk", "system"]),
       pat (spaced ["this", "is", "a", "high", "risk", "system"]) ]),
    ("limited-risk",
     [ pat (spaced ["classify", "as", "limited-risk"]),
       pat (spaced ["classify", "as", "limited", "risk"]),
       pat (rseq [rlit "classification:", ws1, rlit "limited-risk"]),
       pat (rseq [rlit "classification:", ws1, spaced ["limited", "risk"]]),
       patAnchored "limited-risk",
       ⟨true, RE.seq (spaced ["limited", "risk"]) RE.eostr⟩,
       pat (spaced ["this", "is", "a", "limited-risk", "system"]),
       pat (spaced ["this", "is", "a", "limited", "risk", "system"]) ]),
    ("minimal-risk",
     [ pat (spaced ["classify", "as", "minimal-risk"]),
       pat (spaced ["classify", "as", "minimal", "risk"]),
       pat (rseq [rlit "classification:", ws1, rlit "minimal-risk"]),
       pat (rseq [rlit "classification:", ws1, spaced ["minimal", "risk"]]),
       patAnchored "minimal-risk",
       ⟨true, RE.seq (spaced ["minimal", "risk"]) RE.eostr⟩,
       pat (spaced ["this", "is", "a", "minimal-risk", "system"]),
       pat (spaced ["this", "is", "a", "minimal", "risk", "system"]) ]),
    ("general-purpose",
     [ pat (spaced ["classify", "as", "general-purpose"]),
       pat (spaced ["classify", "as", "general", "purpose"]),
       pat (rseq [rlit "classification:", ws1, rlit "general-purpose"]),
       pat (rseq [rlit "classification:", ws1, spaced ["general", "purpose"]]),
       patAnchored "general-purpose",
       ⟨true, RE.seq (spaced ["general", "purpose"]) RE.eostr⟩,
       patAnchored "gpai",
       pat (spaced ["this", "is", "a", "general-purpose", "system"]),
       pat (spaced ["this", "is", "a", "general", "purpose", "system"]) ]) ]

/-- `_determine_system_type_improved` lines 436–441: Article 5 citation
patterns that force a `prohibited` parse of the LLM response. -/
def article_5_patterns : List Pat :=
  [ pat (rseq [rlit "article", ws1, rlit "5"]),
    pat (rseq [rlit "article", ws1, rlit "5", wsStar, rlit "(", wsStar, rlit "1",
      wsStar, rlit ")", wsStar, rlit "(", wsStar, rlit "c", wsStar, rlit ")"]),
    pat (spaced ["prohibited", "under", "article"]),
    pat (spaced ["social", "scoring", "system"]) ]

/-- `_determine_system_type_improved` lines 450–456: keyword lists for the
negation-aware frequency fallback, in dictionary insertion order. -/
def system_types_keywords : List (String × List String) :=
  [ ("prohibited", ["prohibited", "social scoring", "social credit", "article 5"]),
    ("high-risk", ["high-risk", "high risk", "medical diagnosis", "healthcare decision"]),
    ("limited-risk", ["limited-risk", "limited risk", "chatbot", "customer service"]),
    ("minimal-risk", ["minimal-risk", "minimal risk", "product recommendation"]),
    ("general-purpose", ["general-purpose", "general purpose", "gpai"]) ]

/-- `_determine_system_type_improved` lines 459–463: negation tokens looked
for in the 40-character window before a keyword occurrence. -/
def negation_phrases : List String :=
  [ "not", "isn\x27t", "isnt", "doesn\x27t", "doesnt",
    "shouldn\x27t", "shouldnt", "wouldn\x27t", "wouldnt",
    "cannot", "can\x27t", "cant" ]

/-! ## Word-bounded literal search

`_determine_system_type_improved` builds the patterns
`r'\b' + re.escape(keyword) + r'\b'` and `r'\b' + re.escape(negation) + r'\b'`,
and `_analyze_prohibited_system` uses `r'\byes\b'` / `r'\bno\b'`: always a
word boundary, a literal, a word boundary.  `finditerWordAux` reproduces
`re.finditer` for such a pattern (non-overlapping scan, left to right),
returning the match start offsets like `[m.start() for m in re.finditer(…)]`. -/

/-- Whether the head of a character list is a `\w` character (an empty list
stands for the edge of the string, which is not a word character). -/
def headIsWord : List Char → Bool
  | c :: _ => isWordChar c
  | [] => false

/-- A `\b` boundary between a left context (reversed) and a right context:
exactly one side is a word character. -/
def atBoundary (prevRev rest : List Char) : Bool :=
  headIsWord prevRev != headIsWord rest

/-- `pos`: current absolute offset, `prevRev`: consumed text reversed,
`fuel`: decreasing counter (`inp.length + 1` at the top level suffices
because every step consumes at least one character). -/
def finditerWordAux (kw : List Char) : Nat → Nat → List Char → List Char → List Nat
  | 0, _, _, _ => []
  | _ + 1, _, _, [] => []
  | fuel + 1, pos, prevRev, c :: rest =>
    match matchLit false kw (c :: rest) with
    | some r =>
      if atBoundary prevRev (c :: rest) && atBoundary (kw.reverse ++ prevRev) r then
        pos :: finditerWordAux kw fuel (pos + kw.length) (kw.reverse ++ prevRev) r
      else
        finditerWordAux kw fuel (pos + 1) (c :: prevRev) rest
    | none => finditerWordAux kw fuel (pos + 1) (c :: prevRev) rest

/-- Start offsets of the non-overlapping matches of `\b kw \b` in `t`. -/
def finditerWord (kw : List Char) (t : List Char) : List Nat :=
  finditerWordAux kw (t.length + 1) 0 [] t

/-- Truth of `re.search(r'\b' + re.escape(kw) + r'\b', t) is not None`. -/
def hasWordBounded (kw : List Char) (t : List Char) : Bool :=
  !(finditerWord kw t).isEmpty

/-! ## `_extract_score` patterns (lines 864–871)

Each pattern is paired with its conversion rule from lines 878–883: the
fourth pattern (`([0-9][0-9])%`) is compared against by identity and divides
by 100, the third (`score[^0-9]*([0-9])\/10`) divides by 10, everything else
parses the captured group as a decimal. -/

/-- How the matched group of a score pattern is scaled (the `pattern == …`
identity comparisons of lines 878 and 880). -/
inductive ScoreScale where
  | percent
  | tenths
  | plain
deriving Repr, DecidableEq

/-- `([0-9]\.[0-9])`. -/
def decimalGroup : RE := RE.group (rseq [rdigit, rlit ".", rdigit])

/-- The ordered `score_patterns` list of `_extract_score`. -/
def score_patterns : List (RE × ScoreScale) :=
  [ (rseq [rlit "compliance score", nonDigitStar, decimalGroup], .plain),
    (rseq [rlit "score", nonDigitStar, decimalGroup, nonDigitStar, rlit "/",
       nonDigitStar, rlit "1.0"], .plain),
    (rseq [rlit "score", nonDigitStar, RE.group rdigit, rlit "/10"], .tenths),
    (rseq [RE.group (rseq [rdigit, rdigit]), rlit "%"], .percent),
    (rseq [rlit "compliance", nonDigitStar, decimalGroup], .plain),
    (rseq [rlit "score", nonDigitStar, decimalGroup], .plain) ]

/-- All-digit parse. -/
def digitsToNat : List Char → Option Nat
  | [] => some 0
  | c :: rest =>
    if c.isDigit then
      (digitsToNat rest).map fun n => (c.toNat - '0'.toNat) * 10 ^ rest.length + n
    else none

/-- Python `float(s)` restricted to the unsigned shapes the captured groups
can take (`d`, `dd`, `d.d`, …): digits with at most one decimal point.
Anything else is a `ValueError`, modelled as `none`. -/
def pyFloat (s : List Char) : Option ℚ :=
  let intPart := s.takeWhile (fun c => c != '.')
  match s.dropWhile (fun c => c != '.') with
  | [] =>
    if intPart.isEmpty then none
    else (digitsToNat intPart).map fun n => (n : ℚ)
  | _ :: fracPart =>
    if fracPart.contains '.' then none
    else if intPart.isEmpty && fracPart.isEmpty then none
    else
      match digitsToNat intPart, digitsToNat fracPart with
      | some i, some f => some ((i : ℚ) + (f : ℚ) / (10 : ℚ) ^ fracPart.length)
      | _, _ => none

/-! ## `re.findall` drivers -/

/-- `re.findall` for a pattern with no anchors whose matches are never
empty: non-overlapping leftmost matches, emitting the capture group when
the pattern has one and the whole match otherwise. -/
def findAllAux (ci : Bool) (re : RE) : Nat → List Char → List (List Char)
  | 0, _ => []
  | _ + 1, [] => []
  | fuel + 1, c :: rest =>
    match reMatches ci re (c :: rest) with
    | (r, g) :: _ =>
      let whole := (c :: rest).take ((c :: rest).length - r.length)
      (g.getD whole) :: findAllAux ci re fuel (if whole.isEmpty then rest else r)
    | [] => findAllAux ci re fuel rest

/-- `re.findall` (see `findAllAux`). -/
def findAll (ci : Bool) (re : RE) (t : List Char) : List (List Char) :=
  findAllAux ci re (t.length + 1) t

/-- `_identify_compliance_gaps` line 914:
`r"(?:gap|issue|non-compliant|missing|lack)[^.]*\."`. -/
def gapSentencePattern : RE :=
  rseq [ ralt (rlit "gap") [rlit "issue", rlit "non-compliant", rlit "missing", rlit "lack"],
         RE.star true ['.'] false, rlit "." ]

/-- The bracket class `[•\-\*\d]` of the recommendation-list pattern. -/
def bulletChars : List Char := '•' :: '-' :: '*' :: digitChars

/-- A list marker `[•\-\*\d]+[.)]`. -/
def listMarker : RE := RE.seq (RE.plus false bulletChars) (RE.cls false ['.', ')'])

/-- `_generate_recommendations` line 969, body of
`r"(?:^|\n)[•\-\*\d]+[.)]\s*(.*?)(?=\n[•\-\*\d]+[.)]|\n\n|$)"` (with
`re.DOTALL`) after the leading `(?:^|\n)`, which the findall driver below
handles positionally (`^` can only match at offset 0 without
`re.MULTILINE`). -/
def recItemBody : RE :=
  rseq [ listMarker, wsStar, RE.group dotAllLazy,
         RE.look (ralt (RE.seq (rlit "\n") listMarker) [rlit "\n\n", RE.eostr]) ]

/-- The `\n`-prefixed branch of the recommendation-list pattern. -/
def recItemNl : RE := RE.seq (rlit "\n") recItemBody

/-- `re.findall` for the recommendation-list pattern: at offset 0 the `^`
branch of `(?:^|\n)` is tried first, everywhere the `\n` branch is
available; matches are non-overlapping and never empty (the marker consumes
at least two characters). -/
def findAllRecItemsAux : Nat → Bool → List Char → List (List Char)
  | 0, _, _ => []
  | _ + 1, _, [] => []
  | fuel + 1, atStart, c :: rest =>
    match (if atStart then reMatches false recItemBody (c :: rest) else []) ++
          reMatches false recItemNl (c :: rest) with
    | (r, g) :: _ => (g.getD []) :: findAllRecItemsAux fuel false r
    | [] => findAllRecItemsAux fuel false rest

/-- `re.findall(r"(?:^|\n)[•\-\*\d]+[.)]\s*(.*?)(?=\n[•\-\*\d]+[.)]|\n\n|$)",
response_text, re.DOTALL)`. -/
def findAllRecItems (t : List Char) : List (List Char) :=
  findAllRecItemsAux (t.length + 1) true t

/-- The class `[A-Z]`. -/
def upperChars : List Char := (List.range 26).map fun i => Char.ofNat ('A'.toNat + i)

/-- Body of `r"(?<=\. )[A-Z][^.]*\."` after the lookbehind. -/
def sentenceBody : RE :=
  rseq [RE.cls false upperChars, RE.star true ['.'] false, rlit "."]

/-- `re.findall` for the sentence-fallback pattern of
`_generate_recommendations` line 973: the lookbehind `(?<=\. )` admits a
match only at positions directly preceded by the two characters `". "`. -/
def findAllSentencesAux : Nat → List Char → List Char → List (List Char)
  | 0, _, _ => []
  | _ + 1, _, [] => []
  | fuel + 1, prevRev, c :: rest =>
    let behindOk := match prevRev with
      | ' ' :: '.' :: _ => true
      | _ => false
    match (if behindOk then reMatches false sentenceBody (c :: rest) else []) with
    | (r, _) :: _ =>
      let whole := (c :: rest).take ((c :: rest).length - r.length)
      whole :: findAllSentencesAux fuel (whole.reverse ++ prevRev) r
    | [] => findAllSentencesAux fuel (c :: prevRev) rest

/-- `re.findall(r"(?<=\. )[A-Z][^.]*\.", response_text)`. -/
def findAllSentences (t : List Char) : List (List Char) :=
  findAllSentencesAux (t.length + 1) [] t

/-! ## `_analyze_prohibited_system` pattern lists (lines 555–616)

The two `\b…\b` entries go through `hasWordBounded`; everything else is an
ordinary unanchored search.  Each entry is represented as its boolean
`re.search` test. -/

/-- Lines 555–581: affirmative-response patterns. -/
def affirmative_patterns : List (List Char → Bool) :=
  [ hasWordBounded "yes".toList,
    reSearch true (pat (rlit "is a social scoring system")),
    reSearch true (pat (rlit "does qualify as")),
    reSearch true (pat (rlit "does involve")),
    reSearch true (pat (rlit "is designed for")),
    reSearch true (pat (rlit "could be classified as")),
    reSearch true (pat (rlit "exhibits characteristics of")),
    reSearch true (pat (rlit "could be considered")),
    reSearch true (pat (rlit "strong indications")),
    reSearch true (pat (rlit "shows clear signs of")),
    reSearch true (pat (rlit "matches the definition")),
    reSearch true (pat (rlit "meets the criteria")),
    reSearch true (pat (rlit "social credit system")),
    reSearch true (pat (rseq [rlit "citizen", dotLazy, rlit "score"])),
    reSearch true (pat (rseq [rlit "rate", dotLazy, rlit "individuals"])),
    reSearch true (pat (rseq [rlit "evaluate", dotLazy, rlit "citizens"])),
    reSearch true (pat (rseq [rlit "numeric", dotLazy, rlit "score"])),
    reSearch true (pat (rlit "unfavorable treatment")),
    reSearch true (pat (rseq [rlit "algorithmic", dotLazy, rlit "assess"])),
    reSearch true (pat (rlit "article 5")),
    reSearch true (pat (rlit "prohibited under")),
    reSearch true (pat (rlit "clear evidence")),
    reSearch true (pat (rseq [rlit "classif", dotLazy, rlit "based on behavior"])),
    reSearch true (pat (rlit "disproportionate treatment")),
    reSearch true (pat (rseq [rlit "government", dotLazy, rlit "scoring"])) ]

/-- Lines 584–601: negative-response patterns. -/
def negative_patterns : List (List Char → Bool) :=
  [ hasWordBounded "no".toList,
    reSearch true (pat (rlit "not a social scoring system")),
    reSearch true (pat (rlit "not qualify as")),
    reSearch true (pat (rlit "does not qualify")),
    reSearch true (pat (rlit "does not involve")),
    reSearch true (pat (rlit "is not designed for")),
    reSearch true (pat (rlit "cannot be classified as")),
    reSearch true (pat (rlit "does not exhibit")),
    reSearch true (pat (rlit "should not be considered")),
    reSearch true (pat (rlit "no indications")),
    reSearch true (pat (rlit "shows no signs of")),
    reSearch true (pat (rlit "does not match")),
    reSearch true (pat (rlit "does not meet")),
    reSearch true (pat (rlit "clearly not")),
    reSearch true (pat (rlit "explicitly not")),
    reSearch true (pat (rlit "definitely not")) ]

/-- Lines 604–616: social-scoring features looked up directly in the
documentation text. -/
def social_scoring_features : List Pat :=
  [ pat (rseq [rlit "social", ws1, rlit "credit", ws1, rlit "system"]),
    pat (rseq [rlit "social", ws1, rlit "scoring", ws1, rlit "system"]),
    pat (rseq [rlit "citizen", ws1, rlit "score"]),
    pat (rseq [rlit "citizen", ws1, rlit "rank"]),
    pat (rseq [rlit "evaluate", ws1, rlit "citizens", dotLazy, rlit "behavior"]),
    pat (rseq [rlit "social", ws1, rlit "behavior", dotLazy, rlit "score"]),
    pat (rseq [rlit "score", dotLazy, rlit "public", ws1, rlit "services"]),
    pat (rseq [rlit "numerical", ws1, rlit "score", dotLazy, rlit "citizen"]),
    pat (rseq [rlit "access", ws1, rlit "based", ws1, rlit "on", ws1, rlit "score"]),
    pat (rseq [rlit "behavior", ws1, rlit "score"]),
    pat (rseq [rlit "travel", ws1, rlit "restriction", dotLazy, rlit "score"]) ]

/-! ## Data model

Each structure mirrors one of the dict shapes flowing through
`analyze_compliance`; field names are the dict keys. -/

/-- One user documentation chunk; only its `"text"` entry is ever read
(lines 85, 736, 773). -/
structure Chunk where
  text : String
deriving Repr, DecidableEq, Inhabited

/-- One retrieval hit; only its `"text"` entry is ever read (line 785). -/
structure RetrievedSection where
  text : String
deriving Repr, DecidableEq, Inhabited

/-- The external collaborators of `ComplianceAnalyzer`: the completion
oracle `self.llm.invoke` (an invocation that raises is `Except.error`), the
semantic retriever `self.retriever.retrieve(query, namespace, top_k)`, and
the prompt source `get_prompt` (loaded from `prompts.pdf` with built-in
fallbacks in `classification_prompts.py`). -/
structure ComplianceAnalyzer where
  llm : String → Except String String
  retrieve : String → String → Nat → List RetrievedSection
  get_prompt : String → String

/-- The per-category analysis dict built at lines 841–846. -/
structure CategoryAnalysis where
  category : String
  system_type : String
  score : ℚ
  analysis : String
deriving Repr, DecidableEq, Inhabited

/-- A compliance gap dict (lines 917–921). -/
structure ComplianceGap where
  category : String
  description : String
  severity : String
deriving Repr, DecidableEq, Inhabited

/-- A recommendation dict (lines 977–981 and 173–178). -/
structure Recommendation where
  category : String
  recommendation : String
  priority : String
deriving Repr, DecidableEq, Inhabited

/-- The `"social_scoring"` sub-dict of the prohibition analysis
(lines 684–688). -/
structure SocialScoringPart where
  is_social_scoring : Bool
  description : String
  evidence : String
deriving Repr, DecidableEq, Inhabited

/-- The `"manipulation"` sub-dict of the prohibition analysis
(lines 689–693). -/
structure ManipulationPart where
  is_manipulation : Bool
  description : String
  evidence : String
deriving Repr, DecidableEq, Inhabited

/-- The prohibition analysis dict (lines 682–694); `prohibited_category`,
`article` and `explanation` are the keys optionally added at lines 182–189. -/
structure ProhibitedAnalysis where
  is_prohibited : Bool
  social_scoring : SocialScoringPart
  manipulation : ManipulationPart
  prohibited_category : Option String
  article : Option String
  explanation : Option String
deriving Repr, DecidableEq, Inhabited

/-- The results dict of `analyze_compliance` (lines 75–82 plus the keys
added during the run); `prohibition_analysis` is `none` exactly when the
key was never added. -/
structure AnalysisResult where
  system_name : String
  overall_score : ℚ
  category_scores : List (String × ℚ)
  compliance_gaps : List ComplianceGap
  recommendations : List Recommendation
  detailed_analysis : List (String × CategoryAnalysis)
  system_type : String
  prohibition_analysis : Option ProhibitedAnalysis
deriving Repr, DecidableEq, Inhabited

/-! ## Prompt construction -/

/-- Fueled scan for `pyFormat` (fuel = initial length suffices: every step
consumes at least one character). -/
def pyFormatAux (args : List (String × String)) : Nat → List Char → List Char
  | 0, l => l
  | _ + 1, [] => []
  | fuel + 1, c :: rest =>
    if c == '\x7b' then
      let key := rest.takeWhile (fun d => d != '\x7d')
      let rest' := (rest.dropWhile (fun d => d != '\x7d')).drop 1
      (((args.find? fun a => a.1.toList == key).map fun a => a.2.toList).getD [])
        ++ pyFormatAux args fuel rest'
    else c :: pyFormatAux args fuel rest

/-- Python `template.format(**args)` restricted to simple named fields, the
only form the source templates use.  A field name absent from `args` would
raise `KeyError` in Python and never occurs on the executed paths; it is
rendered as the empty string here. -/
def pyFormat (template : String) (args : List (String × String)) : String :=
  String.mk (pyFormatAux args template.toList.length template.toList)

/-- The inline GPAI prompt template of `_analyze_category` (lines 798–809). -/
def GPAI_CATEGORY_PROMPT : String :=
  "\n            You are an expert EU AI Act compliance analyst. Analyze the AI system documentation for compliance with {category} requirements for general-purpose AI systems.\n            \n            EU AI Act Context:\n            {eu_act_context}\n            \n            System Documentation:\n            {documentation}\n            \n            Provide a detailed analysis of compliance with {category} requirements. \n            Assign a compliance score from 0.0 (non-compliant) to 1.0 (fully compliant).\n            "

/-- The inline default prompt template of `_analyze_category`
(lines 812–823). -/
def DEFAULT_CATEGORY_PROMPT : String :=
  "\n            You are an expert EU AI Act compliance analyst. Analyze the AI system documentation for compliance with {category} requirements for {system_type} AI systems.\n            \n            EU AI Act Context:\n            {eu_act_context}\n            \n            System Documentation:\n            {documentation}\n            \n            Provide a detailed analysis of compliance with {category} requirements. \n            Assign a compliance score from 0.0 (non-compliant) to 1.0 (fully compliant).\n            "

/-- The recommendation-generation f-string of `_generate_recommendations`
(lines 955–961). -/
def recommendationPrompt (system_type category combined_gaps : String) : String :=
  "\n            You are an expert EU AI Act compliance consultant. Generate specific recommendations to address the following compliance gaps for a "
    ++ system_type ++ " AI system in the " ++ category
    ++ " category:\n            \n            " ++ combined_gaps
    ++ "\n            \n            Provide 1-3 specific, actionable recommendations to address these gaps and improve compliance with the EU AI Act.\n            "

/-! ## `_determine_system_type_improved` (lines 237–523) -/

/-- Accumulated weight of the matching indicators of one pre-check bucket
(the `re.search(pattern, documentation_text_lower)` loops at lines 270–272,
295–298, 320–323, 348–351; no `re.IGNORECASE`, the text is already
lowercased). -/
def sumWeights (inds : List (Pat × Nat)) (t : List Char) : Nat :=
  (inds.map fun pw => if reSearch false pw.1 t then pw.2 else 0).sum

/-- Layer 1 of the LLM-response parse (lines 429–433): the first category,
in dictionary order, with a direct-statement pattern matching the lowercased
response. -/
def matchedTypeFromResponse (resp : List Char) : Option String :=
  classification_patterns.findSome? fun sp =>
    if sp.2.any fun p => reSearch true p resp then some sp.1 else none

/-- One keyword's contribution in the negation-aware frequency layer
(lines 468–486): +1 per word-bounded occurrence, −1 if a negation token
occurs word-bounded in the 40 characters before it. -/
def keywordScore (resp : List Char) (kw : String) : Int :=
  ((finditerWord kw.toList resp).map fun idx =>
    let context_before := (resp.drop (idx - 40)).take (idx - (idx - 40))
    if negation_phrases.any fun n => hasWordBounded n.toList context_before then
      (-1 : Int)
    else 1).sum

/-- A category's total frequency score over its keyword list. -/
def typeFrequencyScore (resp : List Char) (keywords : List String) : Int :=
  (keywords.map (keywordScore resp)).sum

/-- `type_scores[name] += bonus` (lines 491–505). -/
def addBonus (scores : List (String × Int)) (name : String) (bonus : Nat) :
    List (String × Int) :=
  scores.map fun sc => if sc.1 == name then (sc.1, sc.2 + (bonus : Int)) else sc

/-- The maximum-selection loop of lines 507–514: strict improvement only, so
the first category reaching the maximum wins; the running maximum starts at
`(-1, "minimal-risk")`. -/
def argmaxLoop : List (String × Int) → Int → String → String × Int
  | [], maxScore, maxType => (maxType, maxScore)
  | sc :: rest, maxScore, maxType =>
    if sc.2 > maxScore then argmaxLoop rest sc.2 sc.1
    else argmaxLoop rest maxScore maxType

/-- Parsing of the LLM classification response (lines 369–523), given the
lowercased stripped response and the four pre-check scores: layered
direct-statement patterns, then Article 5 citations, then negation-aware
keyword frequency with the pre-check bonuses (`// 3`), then the
minimal-risk default. -/
def parse_classification_response (resp : List Char)
    (social_scoring_score limited_risk_score product_recommender_score high_risk_score : Nat) :
    String :=
  match matchedTypeFromResponse resp with
  | some system_type => system_type
  | none =>
    if article_5_patterns.any fun p => reSearch true p resp then "prohibited"
    else
      let base := system_types_keywords.map fun sk => (sk.1, typeFrequencyScore resp sk.2)
      let s1 := if social_scoring_score > 0 then
          addBonus base "prohibited" (social_scoring_score / 3) else base
      let s2 := if limited_risk_score > 0 then
          addBonus s1 "limited-risk" (limited_risk_score / 3) else s1
      let s3 := if product_recommender_score > 0 then
          addBonus s2 "minimal-risk" (product_recommender_score / 3) else s2
      let s4 := if high_risk_score > 0 then
          addBonus s3 "high-risk" (high_risk_score / 3) else s3
      let best := argmaxLoop s4 (-1) "minimal-risk"
      if best.2 > 0 then best.1 else "minimal-risk"

/-- `_determine_system_type_improved` (lines 237–523): the four weighted
pre-check buckets in priority order, each short-circuiting at its threshold,
then the oracle classification call whose response is parsed by
`parse_classification_response`.  An oracle error propagates. -/
def determine_system_type_improved (A : ComplianceAnalyzer)
    (documentation_text : String) : Except String String :=
  let documentation_text_lower := strLower documentation_text
  let social_scoring_score := sumWeights social_scoring_indicators documentation_text_lower
  if social_scoring_score ≥ 15 then Except.ok "prohibited"
  else
    let limited_risk_score := sumWeights limited_risk_indicators documentation_text_lower
    if limited_risk_score ≥ 10 then Except.ok "limited-risk"
    else
      let product_recommender_score :=
        sumWeights product_recommender_indicators documentation_text_lower
      if product_recommender_score ≥ 10 then Except.ok "minimal-risk"
      else
        let high_risk_score := sumWeights high_risk_indicators documentation_text_lower
        if high_risk_score ≥ 10 then Except.ok "high-risk"
        else
          let prompt := pyFormat (A.get_prompt "system_classification")
            [("documentation", documentation_text)]
          match A.llm prompt with
          | Except.error e => Except.error e
          | Except.ok content =>
            let response_text_lower := pyLower (pyStrip content.toList)
            Except.ok (parse_classification_response response_text_lower
              social_scoring_score limited_risk_score
              product_recommender_score high_risk_score)

/-! ## The override pass of `analyze_compliance` (lines 93–151) -/

/-- Lines 110–117: whether some prohibited proof-phrase matches the
lowercased corpus. -/
def documentary_evidence_match (t : List Char) : Bool :=
  prohibited_indicators.any fun p => reSearch true p t

/-- Lines 129–134: whether some medical indicator matches. -/
def medical_indicator_match (t : List Char) : Bool :=
  medical_indicators.any fun p => reSearch true p t

/-- Lines 144–149: whether some chatbot indicator matches. -/
def chatbot_indicator_match (t : List Char) : Bool :=
  chatbot_indicators.any fun p => reSearch true p t

/-- The override pass (lines 93–151) as a function of the joined
documentation text and the classification produced by
`_determine_system_type_improved`: the prohibited proof-phrase scan first,
then — only when the current type is not `"prohibited"` and no documentary
evidence was found — the medical loop followed by the chatbot loop (each
loop assigns on its first match; the chatbot loop runs after, and can
overwrite, the medical one).  Returns the final `system_type` together with
the `documentary_evidence_of_prohibition` flag. -/
def applyOverrides (all_text : String) (system_type : String) : String × Bool :=
  let documentation_text_lower := strLower all_text
  let evidence := documentary_evidence_match documentation_text_lower
  let st := if evidence then "prohibited" else system_type
  if st != "prohibited" && !evidence then
    let st1 := if medical_indicator_match documentation_text_lower then "high-risk" else st
    let st2 := if chatbot_indicator_match documentation_text_lower then "limited-risk" else st1
    (st2, evidence)
  else
    (st, evidence)

/-! ## `_extract_score` (lines 850–889) -/

/-- The pattern loop of `_extract_score`: first pattern whose search
succeeds and whose captured group parses as a float wins; the `%` / `/`
membership tests and the pattern-identity comparisons of lines 878–882
select the scale; a `ValueError` (`pyFloat` returning `none`) continues
with the next pattern; the final default is `0.5`. -/
def extractScoreAux (t : List Char) : List (RE × ScoreScale) → ℚ
  | [] => 1 / 2
  | (p, scale) :: rest =>
    match searchGroup true p t with
    | some score_str =>
      match pyFloat score_str with
      | some q =>
        if score_str.contains '%' || scale == ScoreScale.percent then q / 100
        else if score_str.contains '/' || scale == ScoreScale.tenths then q / 10
        else q
      | none => extractScoreAux t rest
    | none => extractScoreAux t rest

/-- `_extract_score(response_text)`. -/
def extract_score (response_text : String) : ℚ :=
  extractScoreAux response_text.toList score_patterns

/-! ## `_identify_compliance_gaps` (lines 891–924) -/

/-- The severity banding of line 920. -/
def gapSeverity (score : ℚ) : String :=
  if score < 3 / 10 then "high" else if score < 1 / 2 then "medium" else "low"

/-- `_identify_compliance_gaps(detailed_analysis, system_type)`: for each
category in insertion order whose score is below `0.7`, every
gap-vocabulary sentence found in its narrative becomes a gap with the
band-derived severity. -/
def identify_compliance_gaps (detailed_analysis : List (String × CategoryAnalysis))
    (system_type : String) : List ComplianceGap :=
  match detailed_analysis with
  | [] => []
  | (category, analysis) :: rest =>
    (if analysis.score < 7 / 10 then
      (findAll true gapSentencePattern analysis.analysis.toList).map fun gap_text =>
        { category := category,
          description := String.mk (pyStrip gap_text),
          severity := gapSeverity analysis.score }
    else []) ++ identify_compliance_gaps rest system_type

/-! ## `_generate_recommendations` (lines 926–984) -/

/-- First-occurrence deduplication (the key order of a Python dict built by
insertion). -/
def dedupFirst : List String → List String
  | [] => []
  | c :: rest => c :: dedupFirst (rest.filter fun x => x != c)
termination_by l => l.length
decreasing_by
  simp only [List.length_cons]
  exact Nat.lt_succ_of_le (List.length_filter_le _ _)

/-- The `gaps_by_category` grouping of lines 942–947: keys in
first-encounter order, each key's gaps in encounter order — extensionally,
the deduplicated category list, each category paired with the filter of
`compliance_gaps` on it. -/
def gaps_by_category (compliance_gaps : List ComplianceGap) :
    List (String × List ComplianceGap) :=
  (dedupFirst (compliance_gaps.map fun g => g.category)).map fun c =>
    (c, compliance_gaps.filter fun g => g.category == c)

/-- The per-category recommendation loop (lines 950–981): one oracle call
per category (an error propagates), list-marker extraction with the
sentence-splitting fallback, and the priority rule of line 980 — `"high"`
iff some contributing gap has high severity, else `"medium"`. -/
def generateRecommendationsLoop (A : ComplianceAnalyzer) (system_type : String) :
    List (String × List ComplianceGap) → Except String (List Recommendation)
  | [] => Except.ok []
  | (category, gaps) :: rest =>
    let combined_gaps := pyJoin "\n" (gaps.map fun g => "- " ++ g.description)
    match A.llm (recommendationPrompt system_type category combined_gaps) with
    | Except.error e => Except.error e
    | Except.ok content =>
      let response_text := String.mk (pyStrip content.toList)
      let items := findAllRecItems response_text.toList
      let recommendation_items :=
        if items.isEmpty then findAllSentences response_text.toList else items
      let priority := if gaps.any fun g => g.severity == "high" then "high" else "medium"
      match generateRecommendationsLoop A system_type rest with
      | Except.error e => Except.error e
      | Except.ok others =>
        Except.ok ((recommendation_items.map fun item =>
          { category := category,
            recommendation := String.mk (pyStrip item),
            priority := priority }) ++ others)

/-- `_generate_recommendations(compliance_gaps, system_type)`. -/
def generate_recommendations (A : ComplianceAnalyzer)
    (compliance_gaps : List ComplianceGap) (system_type : String) :
    Except String (List Recommendation) :=
  generateRecommendationsLoop A system_type (gaps_by_category compliance_gaps)

/-! ## `_analyze_prohibited_system` (lines 525–697) -/

/-- Line 686, affirmative case. -/
def SOCIAL_SCORING_YES_DESC : String :=
  "The system appears to be designed for social scoring and evaluation of natural persons over a period of time based on social behavior or known/predicted personal or personality characteristics."

/-- Line 686, negative case. -/
def SOCIAL_SCORING_NO_DESC : String :=
  "The system does not appear to be designed for social scoring."

/-- Line 691, affirmative case. -/
def MANIPULATION_YES_DESC : String :=
  "The system appears to deploy subliminal techniques beyond a person\x27s consciousness or exploit vulnerabilities due to age, disability, or specific social or economic situations."

/-- Line 691, negative case. -/
def MANIPULATION_NO_DESC : String :=
  "The system does not appear to deploy subliminal techniques or exploit vulnerabilities."

/-- Lines 184–189: the explanation attached when the prohibition analysis
flags social scoring. -/
def PROHIBITED_EXPLANATION : String :=
  "The system appears to be designed for social scoring of individuals, which is explicitly prohibited under Article 5(1)(c) of the EU AI Act. This type of system evaluates natural persons based on their social behavior or personal characteristics, leading to detrimental or unfavorable treatment in contexts unrelated to those in which the data was generated."

/-- `_analyze_prohibited_system(documentation_text)`: two oracle calls
(social scoring, manipulation — either error propagates), then the
affirmative/negative pattern reconciliation of lines 627–679, with direct
lexical evidence in the corpus able to force the social-scoring verdict. -/
def analyze_prohibited_system (A : ComplianceAnalyzer) (documentation_text : String) :
    Except String ProhibitedAnalysis :=
  match A.llm (pyFormat (A.get_prompt "prohibited_social_scoring")
      [("documentation", documentation_text)]) with
  | Except.error e => Except.error e
  | Except.ok socialContent =>
    let social_scoring_text := String.mk (pyStrip socialContent.toList)
    match A.llm (pyFormat (A.get_prompt "prohibited_manipulation")
        [("documentation", documentation_text)]) with
    | Except.error e => Except.error e
    | Except.ok manipContent =>
      let manipulation_text := String.mk (pyStrip manipContent.toList)
      let documentation_text_lower := strLower documentation_text
      let direct_social_scoring_evidence :=
        social_scoring_features.any fun p => reSearch true p documentation_text_lower
      let social_scoring_lower := strLower social_scoring_text
      let affirmative_match_social := affirmative_patterns.any fun f => f social_scoring_lower
      let negative_match_social := negative_patterns.any fun f => f social_scoring_lower
      let is_social_scoring :=
        (affirmative_match_social && !negative_match_social) || direct_social_scoring_evidence
      let manipulation_lower := strLower manipulation_text
      let affirmative_match_manipulation :=
        affirmative_patterns.any fun f => f manipulation_lower
      let negative_match_manipulation :=
        negative_patterns.any fun f => f manipulation_lower
      let is_manipulation := affirmative_match_manipulation && !negative_match_manipulation
      Except.ok
        { is_prohibited := is_social_scoring || is_manipulation,
          social_scoring :=
            { is_social_scoring := is_social_scoring,
              description :=
                if is_social_scoring then SOCIAL_SCORING_YES_DESC else SOCIAL_SCORING_NO_DESC,
              evidence := social_scoring_text },
          manipulation :=
            { is_manipulation := is_manipulation,
              description :=
                if is_manipulation then MANIPULATION_YES_DESC else MANIPULATION_NO_DESC,
              evidence := manipulation_text },
          prohibited_category := none, article := none, explanation := none }

/-! ## `_analyze_category` (lines 755–848) and the category loop -/

/-- `_analyze_category(user_docs, category, system_type)`: retrieval for
context, template selection (`get_prompt` for high-risk, the inline GPAI or
default template otherwise), one oracle call (an error propagates), score
extraction. -/
def analyze_category (A : ComplianceAnalyzer) (user_docs : List Chunk)
    (category system_type : String) : Except String (ℚ × CategoryAnalysis) :=
  let all_text := pyJoin "\n\n" (user_docs.map Chunk.text)
  let query := category ++ " requirements for " ++ system_type ++ " AI systems"
  let eu_act_sections := A.retrieve query "eu_ai_act" 5
  let eu_act_context := pyJoin "\n\n" (eu_act_sections.map RetrievedSection.text)
  let prompt_template :=
    if system_type == "high-risk" then
      if category == "data_governance" then A.get_prompt "data_governance"
      else if category == "human_oversight" then A.get_prompt "human_oversight"
      else A.get_prompt "high_risk_assessment"
    else if system_type == "general-purpose" then GPAI_CATEGORY_PROMPT
    else DEFAULT_CATEGORY_PROMPT
  let prompt := pyFormat prompt_template
    [("category", category), ("system_type", system_type),
     ("eu_act_context", eu_act_context), ("documentation", all_text)]
  match A.llm prompt with
  | Except.error e => Except.error e
  | Except.ok content =>
    let response_text := String.mk (pyStrip content.toList)
    let score := extract_score response_text
    Except.ok (score,
      { category := category, system_type := system_type,
        score := score, analysis := response_text })

/-- The six categories of lines 161–168 / 193–200, in loop order. -/
def categories : List String :=
  [ "risk_assessment", "data_governance", "technical_robustness",
    "transparency", "human_oversight", "accountability" ]

/-- The category loop of lines 202–213: accumulates `category_scores`,
`detailed_analysis` and the running total in loop order; an oracle error
inside `_analyze_category` aborts the run. -/
def categoryLoop (A : ComplianceAnalyzer) (user_docs : List Chunk) (system_type : String) :
    List String → Except String (List (String × ℚ) × List (String × CategoryAnalysis) × ℚ)
  | [] => Except.ok ([], [], 0)
  | category :: rest =>
    match analyze_category A user_docs category system_type with
    | Except.error e => Except.error e
    | Except.ok (category_score, category_analysis) =>
      match categoryLoop A user_docs system_type rest with
      | Except.error e => Except.error e
      | Except.ok (cs, da, total) =>
        Except.ok ((category, category_score) :: cs,
          (category, category_analysis) :: da, category_score + total)

/-! ## `analyze_compliance` (lines 57–235) -/

/-- The fixed prohibited-use recommendation of lines 173–178. -/
def prohibitedRecommendation : Recommendation :=
  { category := "prohibited_use",
    recommendation := "This AI system falls under prohibited uses in the EU AI Act. It should not be deployed in the EU without significant redesign to remove the prohibited elements.",
    priority := "high" }

/-- `analyze_compliance(user_docs, system_name, top_k)`.  The `top_k`
parameter is accepted but never read by the source (the retrieval call at
line 779 hardcodes `top_k=5`).  `save_json` (line 232) is persistence I/O;
the function returns the record it would have written. -/
def analyze_compliance (A : ComplianceAnalyzer) (user_docs : List Chunk)
    (system_name : String) (top_k : Nat) : Except String AnalysisResult :=
  let all_text := pyJoin "\n\n" (user_docs.map Chunk.text)
  match determine_system_type_improved A all_text with
  | Except.error e => Except.error e
  | Except.ok initial_type =>
    let overridden := applyOverrides all_text initial_type
    let system_type := overridden.1
    let documentary_evidence_of_prohibition := overridden.2
    if system_type == "prohibited" || documentary_evidence_of_prohibition then
      match analyze_prohibited_system A all_text with
      | Except.error e => Except.error e
      | Except.ok prohibition_analysis0 =>
        -- line 181: the first lookup, `prohibition_analysis.get("is_social_scoring",
        -- False)`, is always False — the top-level dict has no such key — so the
        -- test reduces to the nested `social_scoring.is_social_scoring` flag.
        let flagged := false || prohibition_analysis0.social_scoring.is_social_scoring
        let prohibition_analysis :=
          if flagged then
            { prohibition_analysis0 with
                prohibited_category := some "social_scoring",
                article := some "Article 5(1)(c)",
                explanation := some PROHIBITED_EXPLANATION }
          else prohibition_analysis0
        Except.ok
          { system_name := system_name,
            overall_score := 0,
            category_scores := categories.map fun c => (c, (0 : ℚ)),
            compliance_gaps := [],
            recommendations := [prohibitedRecommendation],
            detailed_analysis := [],
            system_type := system_type,
            prohibition_analysis := some prohibition_analysis }
    else
      match categoryLoop A user_docs system_type categories with
      | Except.error e => Except.error e
      | Except.ok (category_scores, detailed_analysis, total_score) =>
        let overall_score := total_score / (categories.length : ℚ)
        let compliance_gaps := identify_compliance_gaps detailed_analysis system_type
        match generate_recommendations A compliance_gaps system_type with
        | Except.error e => Except.error e
        | Except.ok recommendations =>
          Except.ok
            { system_name := system_name,
              overall_score := overall_score,
              category_scores := category_scores,
              compliance_gaps := compliance_gaps,
              recommendations := recommendations,
              detailed_analysis := detailed_analysis,
              system_type := system_type,
              prohibition_analysis := none }

/-! ## Helper lemmas -/

/-- Inversion for successful runs classified `"prohibited"`: such a run went
through the prohibited branch of `analyze_compliance`, so every
branch-specific field has its fixed value. -/
theorem analyze_ok_prohibited_shape (A : ComplianceAnalyzer) (user_docs : List Chunk)
    (system_name : String) (top_k : Nat) (r : AnalysisResult)
    (h : analyze_compliance A user_docs system_name top_k = Except.ok r)
    (hp : r.system_type = "prohibited") :
    r.overall_score = 0 ∧
    r.category_scores = categories.map (fun c => (c, (0 : ℚ))) ∧
    r.compliance_gaps = [] ∧
    r.detailed_analysis = [] ∧
    r.recommendations = [prohibitedRecommendation] := by
  unfold analyze_compliance at h
  dsimp only at h
  split at h
  · exact absurd h (by simp)
  · split at h
    · split at h
      · exact absurd h (by simp)
      · obtain rfl : _ = r := Except.ok.inj h
        exact ⟨rfl, rfl, rfl, rfl, rfl⟩
    · rename_i hcond
      split at h
      · exact absurd h (by simp)
      · split at h
        · exact absurd h (by simp)
        · obtain rfl : _ = r := Except.ok.inj h
          simp only [AnalysisResult.system_type] at hp
          simp [hp] at hcond

/-- An analyzer whose oracle never raises keeps
`_determine_system_type_improved` on the success path. -/
theorem determine_ok_of_total (A : ComplianceAnalyzer)
    (hA : ∀ p, ∃ t, A.llm p = Except.ok t) (text : String) :
    ∃ st, determine_system_type_improved A text = Except.ok st := by
  unfold determine_system_type_improved
  simp only
  split
  · exact ⟨_, rfl⟩
  · split
    · exact ⟨_, rfl⟩
    · split
      · exact ⟨_, rfl⟩
      · split
        · exact ⟨_, rfl⟩
        · obtain ⟨t, ht⟩ := hA (pyFormat (A.get_prompt "system_classification")
            [("documentation", text)])
          rw [ht]
          exact ⟨_, rfl⟩

/-- An analyzer whose oracle never raises keeps
`_analyze_prohibited_system` on the success path. -/
theorem analyze_prohibited_ok_of_total (A : ComplianceAnalyzer)
    (hA : ∀ p, ∃ t, A.llm p = Except.ok t) (text : String) :
    ∃ pa, analyze_prohibited_system A text = Except.ok pa := by
  unfold analyze_prohibited_system
  obtain ⟨t1, ht1⟩ := hA (pyFormat (A.get_prompt "prohibited_social_scoring")
    [("documentation", text)])
  obtain ⟨t2, ht2⟩ := hA (pyFormat (A.get_prompt "prohibited_manipulation")
    [("documentation", text)])
  rw [ht1, ht2]
  exact ⟨_, rfl⟩

/-- When a prohibited proof-phrase matches the corpus, the override pass
forces `"prohibited"` whatever classification it is handed. -/
theorem applyOverrides_of_evidence (all_text system_type : String)
    (h : documentary_evidence_match (strLower all_text) = true) :
    applyOverrides all_text system_type = ("prohibited", true) := by
  simp [applyOverrides, h]

/-! ## Concrete runs used by witnesses and counterexamples -/

/-- An analyzer whose oracle always answers with the same text, with empty
retrieval and prompt collaborators. -/
def constAnalyzer (response : String) : ComplianceAnalyzer :=
  { llm := fun _ => Except.ok response,
    retrieve := fun _ _ _ => [],
    get_prompt := fun _ => "" }

/-- Documentation of spec scenario A (a social-scoring system). -/
def socialCreditDocs : List Chunk :=
  [{ text := "We operate a social credit system that assigns citizen scores used to restrict travel permissions" }]

/-- A full run on the social-scoring documentation. -/
def socialCreditRun : Except String AnalysisResult :=
  analyze_compliance (constAnalyzer "ok") socialCreditDocs "SocialCreditSystem" 5

/-- The record produced by `socialCreditRun` (which succeeds). -/
def socialCreditResult : AnalysisResult :=
  match socialCreditRun with
  | Except.ok r => r
  | Except.error _ => default

/-- Documentation of spec scenario C (a customer-service chatbot). -/
def serviceBotDocs : List Chunk :=
  [{ text := "ServiceBot is a customer service chatbot that answers support tickets" }]

/-- A chatbot run in which the oracle reports a compliance score of `0.0`
for every category. -/
def zeroScoreRun : Except String AnalysisResult :=
  analyze_compliance (constAnalyzer "compliance score: 0.0") serviceBotDocs "ServiceBot" 5

/-! ## Claims -/

/-- **C1**: whenever the lowercased corpus matches one of the prohibited
proof-phrase patterns, `analyze_compliance` ends with
`system_type = "prohibited"`, for every possible oracle response function
(and any retrieval and prompt collaborators): the override pass dominates
both the heuristic pre-check and the oracle classification. -/
theorem c1_prohibited_override_dominates (g : String → String)
    (rv : String → String → Nat → List RetrievedSection) (gp : String → String)
    (user_docs : List Chunk) (system_name : String) (top_k : Nat)
    (h : documentary_evidence_match
      (strLower (pyJoin "\n\n" (user_docs.map Chunk.text))) = true) :
    (analyze_compliance ⟨fun p => Except.ok (g p), rv, gp⟩ user_docs system_name top_k).map
      (fun r => r.system_type) = Except.ok "prohibited" := by
  have hA : ∀ p, ∃ t,
      (⟨fun p => Except.ok (g p), rv, gp⟩ : ComplianceAnalyzer).llm p = Except.ok t :=
    fun p => ⟨g p, rfl⟩
  obtain ⟨st, hdet⟩ := determine_ok_of_total _ hA (pyJoin "\n\n" (user_docs.map Chunk.text))
  obtain ⟨pa, hpa⟩ := analyze_prohibited_ok_of_total _ hA (pyJoin "\n\n" (user_docs.map Chunk.text))
  unfold analyze_compliance
  dsimp only
  rw [hdet]
  dsimp only
  rw [applyOverrides_of_evidence _ _ h]
  dsimp only
  rw [hpa]
  rfl

/-- **C1 witness**: a corpus containing `citizen rank` is forced to
`"prohibited"` under a concrete oracle response function. -/
theorem c1_prohibited_override_dominates_witness :
    (analyze_compliance
        ⟨fun p => Except.ok ((fun _ => "this is a minimal-risk system") p),
         fun _ _ _ => [], fun _ => ""⟩
        [{ text := "CitizenRank assigns each citizen rank for access decisions" }]
        "CitizenRank" 5).map (fun r => r.system_type) = Except.ok "prohibited" :=
  c1_prohibited_override_dominates (fun _ => "this is a minimal-risk system")
    (fun _ _ _ => []) (fun _ => "")
    [{ text := "CitizenRank assigns each citizen rank for access decisions" }]
    "CitizenRank" 5 (by decide)

/-- **C2 (amended)**: if a successful run is classified `"prohibited"` its
`overall_score` is `0.0`.  The spec claims this as an equivalence; the
converse direction is false — see the counterexample, a non-prohibited run
whose six extracted scores are all `0.0` and whose mean is therefore
`0.0`. -/
theorem c2_prohibited_implies_zero_score (A : ComplianceAnalyzer)
    (user_docs : List Chunk) (system_name : String) (top_k : Nat) (r : AnalysisResult)
    (h : analyze_compliance A user_docs system_name top_k = Except.ok r)
    (hp : r.system_type = "prohibited") :
    r.overall_score = 0 :=
  (analyze_ok_prohibited_shape A user_docs system_name top_k r h hp).1

/-- **C2 counterexample**: a run classified `"limited-risk"` whose oracle
reports `compliance score: 0.0` for every category ends with
`overall_score = 0.0`, refuting the only-if direction of the claimed
equivalence. -/
theorem c2_zero_score_not_only_prohibited :
    zeroScoreRun.map (fun r => (r.system_type, r.overall_score)) =
      Except.ok ("limited-risk", 0) := by
  with_unfolding_all rfl

/-- **C2 witness**: the amended implication applied to the concrete
social-credit run. -/
theorem c2_prohibited_implies_zero_score_witness :
    socialCreditRun = Except.ok socialCreditResult ∧
    socialCreditResult.system_type = "prohibited" ∧
    socialCreditResult.overall_score = 0 :=
  ⟨rfl, rfl,
    c2_prohibited_implies_zero_score (constAnalyzer "ok") socialCreditDocs
      "SocialCreditSystem" 5 socialCreditResult rfl rfl⟩

/-- **C3**: every successful run classified `"prohibited"` has
`overall_score = 0.0`, all six category scores `0.0`, and exactly one
recommendation, of category `"prohibited_use"` and priority `"high"`. -/
theorem c3_prohibited_run_outputs (A : ComplianceAnalyzer)
    (user_docs : List Chunk) (system_name : String) (top_k : Nat) (r : AnalysisResult)
    (h : analyze_compliance A user_docs system_name top_k = Except.ok r)
    (hp : r.system_type = "prohibited") :
    r.overall_score = 0 ∧
    r.category_scores =
      [("risk_assessment", (0 : ℚ)), ("data_governance", 0), ("technical_robustness", 0),
       ("transparency", 0), ("human_oversight", 0), ("accountability", 0)] ∧
    r.recommendations.map (fun x => (x.category, x.priority)) = [("prohibited_use", "high")] := by
  obtain ⟨h1, h2, _, _, h5⟩ := analyze_ok_prohibited_shape A user_docs system_name top_k r h hp
  refine ⟨h1, ?_, ?_⟩
  · rw [h2]; rfl
  · rw [h5]; rfl

/-- **C3 witness**: the concrete social-credit run (spec scenario A). -/
theorem c3_prohibited_run_outputs_witness :
    socialCreditRun = Except.ok socialCreditResult ∧
    socialCreditResult.system_type = "prohibited" ∧
    socialCreditResult.overall_score = 0 ∧
    socialCreditResult.category_scores =
      [("risk_assessment", (0 : ℚ)), ("data_governance", 0), ("technical_robustness", 0),
       ("transparency", 0), ("human_oversight", 0), ("accountability", 0)] ∧
    socialCreditResult.recommendations.map (fun x => (x.category, x.priority)) =
      [("prohibited_use", "high")] := by
  refine ⟨rfl, rfl, ?_⟩
  exact c3_prohibited_run_outputs (constAnalyzer "ok") socialCreditDocs
    "SocialCreditSystem" 5 socialCreditResult rfl rfl

/-- **C10**: the prohibited branch never runs gap extraction or
per-category analysis, so a successful run classified `"prohibited"` keeps
`compliance_gaps = []` and `detailed_analysis = {}` — their initial empty
values — even though all six (zero) category scores lie below the `0.7`
gap-extraction threshold. -/
theorem c10_prohibited_run_empty_gaps_analysis (A : ComplianceAnalyzer)
    (user_docs : List Chunk) (system_name : String) (top_k : Nat) (r : AnalysisResult)
    (h : analyze_compliance A user_docs system_name top_k = Except.ok r)
    (hp : r.system_type = "prohibited") :
    r.compliance_gaps = [] ∧ r.detailed_analysis = [] := by
  obtain ⟨_, _, h3, h4, _⟩ := analyze_ok_prohibited_shape A user_docs system_name top_k r h hp
  exact ⟨h3, h4⟩

/-- **C10 witness**: the concrete social-credit run keeps both fields
empty. -/
theorem c10_prohibited_run_empty_gaps_analysis_witness :
    socialCreditRun = Except.ok socialCreditResult ∧
    socialCreditResult.system_type = "prohibited" ∧
    socialCreditResult.compliance_gaps = [] ∧
    socialCreditResult.detailed_analysis = [] := by
  refine ⟨rfl, rfl, ?_⟩
  exact c10_prohibited_run_empty_gaps_analysis (constAnalyzer "ok") socialCreditDocs
    "SocialCreditSystem" 5 socialCreditResult rfl rfl

/-- **C4**: the heuristic pre-check evaluates its four weighted buckets in
strict priority order — Prohibited at threshold 15, then LimitedRisk at 10,
then the MinimalRisk carve-out at 10, then HighRisk at 10 — returning at the
first bucket that clears its threshold, for every analyzer (in particular,
whatever the oracle would answer): a corpus with Prohibited weight ≥ 15 is
`"prohibited"` even when its HighRisk weight is ≥ 10. -/
theorem c4_precheck_priority_order :
    (∀ (A : ComplianceAnalyzer) (text : String),
        15 ≤ sumWeights social_scoring_indicators (strLower text) →
        determine_system_type_improved A text = Except.ok "prohibited") ∧
    (∀ (A : ComplianceAnalyzer) (text : String),
        sumWeights social_scoring_indicators (strLower text) < 15 →
        10 ≤ sumWeights limited_risk_indicators (strLower text) →
        determine_system_type_improved A text = Except.ok "limited-risk") ∧
    (∀ (A : ComplianceAnalyzer) (text : String),
        sumWeights social_scoring_indicators (strLower text) < 15 →
        sumWeights limited_risk_indicators (strLower text) < 10 →
        10 ≤ sumWeights product_recommender_indicators (strLower text) →
        determine_system_type_improved A text = Except.ok "minimal-risk") ∧
    (∀ (A : ComplianceAnalyzer) (text : String),
        sumWeights social_scoring_indicators (strLower text) < 15 →
        sumWeights limited_risk_indicators (strLower text) < 10 →
        sumWeights product_recommender_indicators (strLower text) < 10 →
        10 ≤ sumWeights high_risk_indicators (strLower text) →
        determine_system_type_improved A text = Except.ok "high-risk") := by
  refine ⟨?_, ?_, ?_, ?_⟩
  · intro A text h1
    unfold determine_system_type_improved
    dsimp only
    rw [if_pos h1]
  · intro A text h1 h2
    unfold determine_system_type_improved
    dsimp only
    rw [if_neg (by omega), if_pos h2]
  · intro A text h1 h2 h3
    unfold determine_system_type_improved
    dsimp only
    rw [if_neg (by omega), if_neg (by omega), if_pos h3]
  · intro A text h1 h2 h3 h4
    unfold determine_system_type_improved
    dsimp only
    rw [if_neg (by omega), if_neg (by omega), if_neg (by omega), if_pos h4]

/-- **C4 witness**: the four buckets exercised on concrete corpora.  The
first corpus has Prohibited weight 20 and HighRisk weight 16 and still
classifies `"prohibited"`. -/
theorem c4_precheck_priority_order_witness :
    determine_system_type_improved (constAnalyzer "x")
      "social credit system and social scoring system with medical diagnosis by mediscan" =
        Except.ok "prohibited" ∧
    determine_system_type_improved (constAnalyzer "x")
      "ServiceBot is a customer service chatbot that answers support tickets" =
        Except.ok "limited-risk" ∧
    determine_system_type_improved (constAnalyzer "x")
      "ShopSmart is a product recommendation engine" = Except.ok "minimal-risk" ∧
    determine_system_type_improved (constAnalyzer "x")
      "MediScan performs medical diagnosis from MRI scans" = Except.ok "high-risk" :=
  ⟨c4_precheck_priority_order.1 (constAnalyzer "x") _ (by decide),
   c4_precheck_priority_order.2.1 (constAnalyzer "x") _ (by decide) (by decide),
   c4_precheck_priority_order.2.2.1 (constAnalyzer "x") _ (by decide) (by decide) (by decide),
   c4_precheck_priority_order.2.2.2 (constAnalyzer "x") _ (by decide) (by decide) (by decide)
     (by decide)⟩

/-- **C7 counterexample**: on a corpus matching both a medical pattern
(`medical diagnosis`) and a chatbot pattern (`chatbot`), with no prohibited
proof-phrase, the override pass returns `"limited-risk"`, not the
`"high-risk"` the claim requires for every medical match: the chatbot loop
runs after the medical loop and overwrites it. -/
theorem c7_medical_override_not_forced :
    documentary_evidence_match
      (strLower "MediScan offers medical diagnosis support with an integrated chatbot") = false ∧
    medical_indicator_match
      (strLower "MediScan offers medical diagnosis support with an integrated chatbot") = true ∧
    chatbot_indicator_match
      (strLower "MediScan offers medical diagnosis support with an integrated chatbot") = true ∧
    (applyOverrides "MediScan offers medical diagnosis support with an integrated chatbot"
      "minimal-risk").1 = "limited-risk" :=
  ⟨by decide, by decide, by decide, by decide⟩

/-- **C7 (amended)**: when no prohibited proof-phrase matches, the override
pass forces `"limited-risk"` on any chatbot match, forces `"high-risk"` on a
medical match only when no chatbot pattern matches (the chatbot loop runs
second and wins), and leaves an already-`"prohibited"` classification
untouched. -/
theorem c7_overrides_amended (all_text system_type : String)
    (h : documentary_evidence_match (strLower all_text) = false) :
    (applyOverrides all_text system_type).1 =
      (if system_type = "prohibited" then "prohibited"
       else if chatbot_indicator_match (strLower all_text) then "limited-risk"
       else if medical_indicator_match (strLower all_text) then "high-risk"
       else system_type) := by
  by_cases hp : system_type = "prohibited"
  · subst hp
    simp [applyOverrides, h]
  · simp only [applyOverrides, h]
    simp [hp]

/-- **C7 witness**: a corpus matching only a medical pattern is forced to
`"high-risk"`. -/
theorem c7_overrides_amended_witness :
    (applyOverrides "clinical decision support software" "minimal-risk").1 = "high-risk" :=
  (c7_overrides_amended "clinical decision support software" "minimal-risk"
    (by decide)).trans (by decide)

/-- **C8 counterexample**: when every pre-check bucket is below threshold
and the oracle invocation raises, `_determine_system_type_improved`
propagates the error instead of catching it and falling back to
MinimalRisk — the classification call at line 365 is not wrapped in any
`try`/`except`. -/
theorem c8_oracle_error_not_caught :
    determine_system_type_improved
      ⟨fun _ => Except.error "timeout", fun _ _ _ => [], fun _ => ""⟩
      "a plain productivity tool" = Except.error "timeout" := by
  rfl

/-- **C8 (amended)**: when the heuristic pre-check defers to the LLM
classifier and the oracle invocation raises, the error propagates out of
the classifier (aborting the run); the MinimalRisk default applies only to
successfully returned responses in which no pattern is recognised. -/
theorem c8_oracle_error_propagates (A : ComplianceAnalyzer) (text : String) (e : String)
    (h1 : sumWeights social_scoring_indicators (strLower text) < 15)
    (h2 : sumWeights limited_risk_indicators (strLower text) < 10)
    (h3 : sumWeights product_recommender_indicators (strLower text) < 10)
    (h4 : sumWeights high_risk_indicators (strLower text) < 10)
    (h5 : ∀ p, A.llm p = Except.error e) :
    determine_system_type_improved A text = Except.error e := by
  unfold determine_system_type_improved
  dsimp only
  rw [if_neg (by omega), if_neg (by omega), if_neg (by omega), if_neg (by omega), h5]

/-- **C8 witness**: the amended propagation at a concrete corpus and a
concrete failing oracle. -/
theorem c8_oracle_error_propagates_witness :
    determine_system_type_improved
      ⟨fun _ => Except.error "network unreachable", fun _ _ _ => [], fun _ => ""⟩
      "hello world" = Except.error "network unreachable" :=
  c8_oracle_error_propagates
    ⟨fun _ => Except.error "network unreachable", fun _ _ _ => [], fun _ => ""⟩
    "hello world" "network unreachable"
    (by decide) (by decide) (by decide) (by decide) (fun _ => rfl)

/-- **C5 counterexample**: a narrative containing `6/10` but no preceding
`score` token extracts the default `0.5`, not `0.6` — the `X/10` template
(line 867) is `score[^0-9]*([0-9])\/10` and requires the literal `score`
before the fraction. -/
theorem c5_bare_fraction_not_extracted :
    extract_score "6/10" = 1 / 2 ∧ extract_score "6/10" ≠ 3 / 5 := by
  have h : extract_score "6/10" = 1 / 2 := by with_unfolding_all rfl
  refine ⟨h, ?_⟩
  rw [h]
  norm_num

/-- **C5 (amended)**: `extract_score` round-trips — `compliance score: 0.8`
to `0.8` exactly, `75%` to `0.75`, `score: 6/10` (the `6/10` case needs the
preceding `score` token) to `0.6`, and a narrative with no numeric pattern
to the `0.5` default. -/
theorem c5_extract_score_round_trips :
    extract_score "compliance score: 0.8" = 8 / 10 ∧
    extract_score "75%" = 75 / 100 ∧
    extract_score "score: 6/10" = 6 / 10 ∧
    extract_score "No numeric pattern appears here" = 1 / 2 := by
  refine ⟨?_, ?_, ?_, ?_⟩ <;> with_unfolding_all rfl

/-- Values produced by `pyFloat` (Python `float` on captured digit groups)
are nonnegative. -/
theorem pyFloat_nonneg (s : List Char) (q : ℚ) (h : pyFloat s = some q) : 0 ≤ q := by
  unfold pyFloat at h
  dsimp only at h
  split at h
  · split at h
    · exact absurd h (by simp)
    · match hd : digitsToNat (s.takeWhile (fun c => c != '.')) with
      | none => rw [hd] at h; exact absurd h (by simp)
      | some n =>
        rw [hd] at h
        obtain rfl : ((n : ℚ)) = q := by simpa using h
        positivity
  · rename_i c fracPart hsp
    split at h
    · exact absurd h (by simp)
    · split at h
      · exact absurd h (by simp)
      · split at h
        · rename_i i f hi hf
          obtain rfl : (i : ℚ) + (f : ℚ) / (10 : ℚ) ^ fracPart.length = q := by simpa using h
          positivity
        · exact absurd h (by simp)

theorem char_toNat_ofNat_small (n : Nat) (h : n < 0xd800) : (Char.ofNat n).toNat = n := by
  unfold Char.ofNat
  rw [dif_pos (Or.inl h : Nat.isValidChar n)]
  simp [Char.ofNatAux, Char.toNat, UInt32.toNat]

theorem char_toNat_le_of_le {c d : Char} (h : c ≤ d) : c.toNat ≤ d.toNat := by
  exact h

theorem pyLowerChar_eq_nonletter {c d : Char} (hd : d.toNat < 97) (h : pyLowerChar c = d) :
    c = d := by
  unfold pyLowerChar at h
  split at h
  · rename_i hc
    exfalso
    have h1 : 65 ≤ c.toNat := char_toNat_le_of_le hc.1
    have h2 : c.toNat ≤ 90 := char_toNat_le_of_le hc.2
    have h3 := congrArg Char.toNat h
    rw [char_toNat_ofNat_small _ (by omega)] at h3
    omega
  · exact h



theorem matchLit_suffix (ci : Bool) :
    ∀ (s inp r : List Char), matchLit ci s inp = some r → ∃ pre, inp = pre ++ r := by
  intro s
  induction s with
  | nil =>
    intro inp r h
    unfold matchLit at h
    exact ⟨[], by simpa using Option.some.inj h⟩
  | cons p ps ih =>
    intro inp r h
    match inp with
    | [] => simp [matchLit] at h
    | c :: cs =>
      unfold matchLit at h
      split at h
      · obtain ⟨pre, rfl⟩ := ih cs r h
        exact ⟨c :: pre, rfl⟩
      · exact absurd h (by simp)

theorem classRemainders_suffix (ci neg : Bool) (cs : List Char) :
    ∀ (inp r : List Char), r ∈ classRemainders ci neg cs inp → ∃ pre, inp = pre ++ r := by
  intro inp
  induction inp with
  | nil =>
    intro r h
    simp [classRemainders] at h
    exact ⟨[], by simp [h]⟩
  | cons c rest ih =>
    intro r h
    unfold classRemainders at h
    split at h
    · rcases List.mem_cons.mp h with rfl | h2
      · exact ⟨[], rfl⟩
      · obtain ⟨pre, rfl⟩ := ih r h2
        exact ⟨c :: pre, rfl⟩
    · exact ⟨[], by simp [List.mem_singleton.mp h]⟩

theorem reMatches_suffix (ci : Bool) :
    ∀ (re : RE) (inp : List Char) (p : List Char × Option (List Char)),
      p ∈ reMatches ci re inp → ∃ pre, inp = pre ++ p.1 := by
  intro re
  induction re with
  | lit s =>
    intro inp p h
    unfold reMatches at h
    split at h
    · rename_i r hr
      obtain rfl := List.mem_singleton.mp h
      exact matchLit_suffix ci s inp r hr
    · exact absurd h (by simp)
  | cls neg cs =>
    intro inp p h
    match inp with
    | [] => simp [reMatches] at h
    | c :: rest =>
      unfold reMatches at h
      split at h
      · obtain rfl := List.mem_singleton.mp h
        exact ⟨[c], rfl⟩
      · exact absurd h (by simp)
  | seq a b iha ihb =>
    intro inp p h
    unfold reMatches at h
    obtain ⟨q, hq, hp⟩ := List.mem_flatMap.mp h
    obtain ⟨w, hw, rfl⟩ := List.mem_map.mp hp
    obtain ⟨pre1, h1⟩ := iha inp q hq
    obtain ⟨pre2, h2⟩ := ihb q.1 w hw
    exact ⟨pre1 ++ pre2, by simp [h1, h2]⟩
  | alt a b iha ihb =>
    intro inp p h
    unfold reMatches at h
    rcases List.mem_append.mp h with h1 | h2
    · exact iha inp p h1
    · exact ihb inp p h2
  | star neg cs lazy =>
    intro inp p h
    unfold reMatches at h
    obtain ⟨r, hr, rfl⟩ := List.mem_map.mp h
    have hr' : r ∈ classRemainders ci neg cs inp := by
      by_cases hl : lazy
      · simpa [hl] using hr
      · simpa [hl] using List.mem_reverse.mp (by simpa [hl] using hr)
    exact classRemainders_suffix ci neg cs inp r hr'
  | plus neg cs =>
    intro inp p h
    unfold reMatches at h
    obtain ⟨r, hr, rfl⟩ := List.mem_map.mp h
    have hr' : r ∈ classRemainders ci neg cs inp :=
      List.mem_of_mem_drop (List.mem_reverse.mp hr)
    exact classRemainders_suffix ci neg cs inp r hr'
  | opt a ih =>
    intro inp p h
    unfold reMatches at h
    rcases List.mem_append.mp h with h1 | h2
    · exact ih inp p h1
    · obtain rfl := List.mem_singleton.mp h2
      exact ⟨[], rfl⟩
  | group a ih =>
    intro inp p h
    unfold reMatches at h
    obtain ⟨q, hq, rfl⟩ := List.mem_map.mp h
    exact ih inp q hq
  | look a ih =>
    intro inp p h
    unfold reMatches at h
    split at h
    · exact absurd h (by simp)
    · obtain rfl := List.mem_singleton.mp h
      exact ⟨[], rfl⟩
  | eostr =>
    intro inp p h
    unfold reMatches at h
    split at h
    · obtain rfl := List.mem_singleton.mp h
      exact ⟨[], rfl⟩
    · exact absurd h (by simp)



/-- `g` is a list that the pattern `a` can consume in full (the content a
capture group around `a` would record). -/
def GMatch (ci : Bool) (a : RE) (g : List Char) : Prop :=
  ∃ tail q, q ∈ reMatches ci a (g ++ tail) ∧ q.1 = tail

/-- The possible captured-group contents of a pattern: a capture always
comes from a `group` node, and records a list its body consumed. -/
def CapOf (ci : Bool) : RE → List Char → Prop
  | .lit _, _ => False
  | .cls _ _, _ => False
  | .seq a b, g => CapOf ci a g ∨ CapOf ci b g
  | .alt a b, g => CapOf ci a g ∨ CapOf ci b g
  | .star _ _ _, _ => False
  | .plus _ _, _ => False
  | .opt a, g => CapOf ci a g
  | .group a, g => GMatch ci a g
  | .look _, _ => False
  | .eostr, _ => False

theorem orElse_eq_some {α : Type} (a b : Option α) (g : α) (h : (a <|> b) = some g) :
    a = some g ∨ (a = none ∧ b = some g) := by
  cases a with
  | none => exact Or.inr ⟨rfl, by simpa using h⟩
  | some x => exact Or.inl (by simpa using h)

theorem reMatches_capture (ci : Bool) :
    ∀ (re : RE) (inp r g : List Char), (r, some g) ∈ reMatches ci re inp →
      CapOf ci re g := by
  intro re
  induction re with
  | lit s =>
    intro inp r g h
    unfold reMatches at h
    split at h
    · exact absurd (List.mem_singleton.mp h) (by simp)
    · exact absurd h (by simp)
  | cls neg cs =>
    intro inp r g h
    match inp with
    | [] => simp [reMatches] at h
    | c :: rest =>
      unfold reMatches at h
      split at h
      · exact absurd (List.mem_singleton.mp h) (by simp)
      · exact absurd h (by simp)
  | seq a b iha ihb =>
    intro inp r g h
    unfold reMatches at h
    obtain ⟨q, hq, hp⟩ := List.mem_flatMap.mp h
    obtain ⟨w, hw, heq⟩ := List.mem_map.mp hp
    have h2 : (q.2 <|> w.2) = some g := congrArg Prod.snd heq
    rcases orElse_eq_some _ _ _ h2 with hc | ⟨_, hc⟩
    · exact Or.inl (iha inp q.1 g (by rw [← hc]; exact hq))
    · exact Or.inr (ihb q.1 w.1 g (by rw [← hc]; exact hw))
  | alt a b iha ihb =>
    intro inp r g h
    unfold reMatches at h
    rcases List.mem_append.mp h with h1 | h2
    · exact Or.inl (iha inp r g h1)
    · exact Or.inr (ihb inp r g h2)
  | star neg cs lazy =>
    intro inp r g h
    unfold reMatches at h
    obtain ⟨x, _, hx⟩ := List.mem_map.mp h
    simp at hx
  | plus neg cs =>
    intro inp r g h
    unfold reMatches at h
    obtain ⟨x, _, hx⟩ := List.mem_map.mp h
    simp at hx
  | opt a ih =>
    intro inp r g h
    unfold reMatches at h
    rcases List.mem_append.mp h with h1 | h2
    · exact ih inp r g h1
    · exact absurd (List.mem_singleton.mp h2) (by simp)
  | group a ih =>
    intro inp r g h
    unfold reMatches at h
    obtain ⟨q, hq, heq⟩ := List.mem_map.mp h
    injection heq with h1 h2
    have hg : g = inp.take (inp.length - q.1.length) := (Option.some.inj h2).symm
    obtain ⟨pre, rfl⟩ := reMatches_suffix ci a inp q hq
    rw [List.length_append, Nat.add_sub_cancel, List.take_left] at hg
    subst hg
    exact ⟨q.1, q, hq, rfl⟩
  | look a ih =>
    intro inp r g h
    unfold reMatches at h
    split at h
    · exact absurd h (by simp)
    · exact absurd (List.mem_singleton.mp h) (by simp)
  | eostr =>
    intro inp r g h
    unfold reMatches at h
    split at h
    · exact absurd (List.mem_singleton.mp h) (by simp)
    · exact absurd h (by simp)



theorem searchFrom_capture (ci : Bool) (re : RE) :
    ∀ (t : List Char) (g : List Char), searchFrom ci re t = some (some g) →
      CapOf ci re g := by
  intro t
  induction t with
  | nil =>
    intro g h
    unfold searchFrom at h
    split at h
    · rename_i p rest hp
      have hp2 : p.2 = some g := Option.some.inj h
      have hmem : (p.1, some g) ∈ reMatches ci re [] := by
        rw [← hp2, Prod.mk.eta, hp]
        exact List.mem_cons_self _ _
      exact reMatches_capture ci re [] p.1 g hmem
    · exact absurd h (by simp)
  | cons c cs ih =>
    intro g h
    unfold searchFrom at h
    split at h
    · rename_i p rest hp
      have hp2 : p.2 = some g := Option.some.inj h
      have hmem : (p.1, some g) ∈ reMatches ci re (c :: cs) := by
        rw [← hp2, Prod.mk.eta, hp]
        exact List.mem_cons_self _ _
      exact reMatches_capture ci re (c :: cs) p.1 g hmem
    · exact ih g h

theorem searchGroup_capture (ci : Bool) (re : RE) (t g : List Char)
    (h : searchGroup ci re t = some g) : CapOf ci re g := by
  unfold searchGroup at h
  split at h
  next g1 hg1 =>
    obtain rfl : g1 = g := Option.some.inj h
    exact searchFrom_capture ci re t _ hg1
  next hg1 =>
    exact absurd h (by simp)



theorem reMatches_cls_inv (ci neg : Bool) (cs : List Char) (inp : List Char)
    (q : List Char × Option (List Char)) (h : q ∈ reMatches ci (RE.cls neg cs) inp) :
    ∃ c, inp = c :: q.1 := by
  match inp with
  | [] => simp [reMatches] at h
  | c :: rest =>
    unfold reMatches at h
    split at h
    · obtain rfl := List.mem_singleton.mp h
      exact ⟨c, rfl⟩
    · exact absurd h (by simp)

theorem reMatches_lit_empty_inv (ci : Bool) (inp : List Char)
    (q : List Char × Option (List Char)) (h : q ∈ reMatches ci (RE.lit []) inp) :
    q.1 = inp := by
  unfold reMatches at h
  simp [matchLit] at h
  simp [h]

theorem reMatches_lit_dot_inv (inp : List Char)
    (q : List Char × Option (List Char)) (h : q ∈ reMatches true (RE.lit ['.']) inp) :
    inp = '.' :: q.1 := by
  unfold reMatches at h
  split at h
  · rename_i r hr
    obtain rfl := List.mem_singleton.mp h
    match inp with
    | [] => simp [matchLit] at hr
    | c :: cs =>
      unfold matchLit at hr
      split at hr
      · rename_i hc
        have hpl : pyLowerChar c = '.' := by
          have hc' : (pyLowerChar '.' == pyLowerChar c) = true := by simpa [chrEq] using hc
          have : pyLowerChar '.' = pyLowerChar c := eq_of_beq hc'
          rw [← this]
          decide
        obtain rfl : c = '.' := pyLowerChar_eq_nonletter (by decide) hpl
        have : r = cs := by
          have := hr
          simp [matchLit] at this
          exact this.symm
        simp [this]
      · exact absurd hr (by simp)
  · exact absurd h (by simp)

theorem reMatches_seq_inv (ci : Bool) (a b : RE) (inp : List Char)
    (q : List Char × Option (List Char)) (h : q ∈ reMatches ci (RE.seq a b) inp) :
    ∃ q1 q2, q1 ∈ reMatches ci a inp ∧ q2 ∈ reMatches ci b q1.1 ∧ q.1 = q2.1 := by
  unfold reMatches at h
  obtain ⟨q1, hq1, hp⟩ := List.mem_flatMap.mp h
  obtain ⟨q2, hq2, rfl⟩ := List.mem_map.mp hp
  exact ⟨q1, q2, hq1, hq2, rfl⟩

theorem gmatch_digit_shape (g : List Char) (h : GMatch true rdigit g) : ∃ c, g = [c] := by
  obtain ⟨tail, q, hq, hq1⟩ := h
  obtain ⟨c, hc⟩ := reMatches_cls_inv _ _ _ _ _ hq
  rw [hq1] at hc
  exact ⟨c, List.append_cancel_right (by simpa using hc : g ++ tail = [c] ++ tail)⟩

theorem gmatch_two_digits_shape (g : List Char)
    (h : GMatch true (rseq [rdigit, rdigit]) g) : ∃ c1 c2, g = [c1, c2] := by
  obtain ⟨tail, q, hq, hq1⟩ := h
  rw [show rseq [rdigit, rdigit] = RE.seq rdigit (RE.seq rdigit (RE.lit [])) from rfl] at hq
  obtain ⟨q1, q2, hm1, hm2, he1⟩ := reMatches_seq_inv _ _ _ _ _ hq
  obtain ⟨c1, hc1⟩ := reMatches_cls_inv _ _ _ _ _ hm1
  obtain ⟨q3, q4, hm3, hm4, he2⟩ := reMatches_seq_inv _ _ _ _ _ hm2
  obtain ⟨c2, hc2⟩ := reMatches_cls_inv _ _ _ _ _ hm3
  have he3 := reMatches_lit_empty_inv _ _ _ hm4
  have hfin : g ++ tail = c1 :: c2 :: tail := by
    rw [hc1, hc2, ← he3, ← he2, ← he1, hq1]
  exact ⟨c1, c2, List.append_cancel_right (by simpa using hfin : g ++ tail = _ ++ tail)⟩

theorem gmatch_decimal_shape (g : List Char)
    (h : GMatch true (rseq [rdigit, rlit ".", rdigit]) g) : ∃ c1 c2, g = [c1, '.', c2] := by
  obtain ⟨tail, q, hq, hq1⟩ := h
  rw [show rseq [rdigit, rlit ".", rdigit] =
    RE.seq rdigit (RE.seq (rlit ".") (RE.seq rdigit (RE.lit []))) from rfl] at hq
  obtain ⟨q1, q2, hm1, hm2, he1⟩ := reMatches_seq_inv _ _ _ _ _ hq
  obtain ⟨c1, hc1⟩ := reMatches_cls_inv _ _ _ _ _ hm1
  obtain ⟨q3, q4, hm3, hm4, he2⟩ := reMatches_seq_inv _ _ _ _ _ hm2
  have hdot := reMatches_lit_dot_inv _ _ hm3
  obtain ⟨q5, q6, hm5, hm6, he3⟩ := reMatches_seq_inv _ _ _ _ _ hm4
  obtain ⟨c2, hc2⟩ := reMatches_cls_inv _ _ _ _ _ hm5
  have he4 := reMatches_lit_empty_inv _ _ _ hm6
  have hfin : g ++ tail = c1 :: '.' :: c2 :: tail := by
    rw [hc1, hdot, hc2, ← he4, ← he3, ← he2, ← he1, hq1]
  exact ⟨c1, c2, List.append_cancel_right (by simpa using hfin : g ++ tail = _ ++ tail)⟩



theorem digitsToNat_lt (s : List Char) (n : Nat) (h : digitsToNat s = some n) :
    n < 10 ^ s.length := by
  induction s generalizing n with
  | nil =>
    simp [digitsToNat] at h
    simp [← h]
  | cons c cs ih =>
    unfold digitsToNat at h
    split at h
    · rename_i hdig
      cases hm : digitsToNat cs with
      | none => rw [hm] at h; exact absurd h (by simp)
      | some m =>
        rw [hm] at h
        simp only [Option.map_some'] at h
        obtain rfl := Option.some.inj h
        have hm' := ih m hm
        have hc : c.toNat ≤ 57 := by
          simp [Char.isDigit] at hdig
          exact hdig.2
        have hpow : 10 ^ (c :: cs).length = 10 * 10 ^ cs.length := by
          simp [List.length_cons, pow_succ]
          ring
        rw [hpow]
        have hd9 : c.toNat - '0'.toNat ≤ 9 := by
          have : '0'.toNat = 48 := by decide
          omega
        have h10 : 0 < 10 ^ cs.length := pow_pos (by norm_num) _
        calc (c.toNat - '0'.toNat) * 10 ^ cs.length + m
            ≤ 9 * 10 ^ cs.length + m := by
              have := Nat.mul_le_mul_right (10 ^ cs.length) hd9
              omega
          _ < 10 * 10 ^ cs.length := by omega
    · exact absurd h (by simp)

theorem pyFloat_single_le (c : Char) (q : ℚ) (h : pyFloat [c] = some q) : q ≤ 9 := by
  unfold pyFloat at h
  dsimp only at h
  by_cases hc : c = '.'
  · subst hc
    simp only [List.dropWhile_cons, List.takeWhile_cons, bne_self_eq_false,
      Bool.false_eq_true, if_false, ite_false, List.contains_nil, List.isEmpty_nil,
      Bool.and_self, ite_true, if_true] at h
    exact absurd h (by simp)
  · have hb : (c != '.') = true := by simp [hc]
    simp only [List.dropWhile_cons, List.takeWhile_cons, hb, if_true, ite_true,
      List.dropWhile_nil, List.takeWhile_nil, List.isEmpty_cons] at h
    split at h
    · exact absurd h (by simp)
    · cases hd : digitsToNat [c] with
      | none => rw [hd] at h; exact absurd h (by simp)
      | some n =>
        rw [hd] at h
        obtain rfl : (n : ℚ) = q := by simpa using h

        have hlt := digitsToNat_lt [c] n hd
        simp only [List.length_singleton, pow_one] at hlt
        exact_mod_cast Nat.lt_succ_iff.mp hlt

theorem pyFloat_pair_le (c1 c2 : Char) (q : ℚ) (h : pyFloat [c1, c2] = some q) : q ≤ 99 := by
  unfold pyFloat at h
  dsimp only at h
  by_cases h1 : c1 = '.'
  · subst h1
    by_cases h2 : c2 = '.'
    · subst h2
      simp only [List.dropWhile_cons, List.takeWhile_cons, bne_self_eq_false,
        Bool.false_eq_true, if_false, ite_false] at h
      rw [if_pos (by simp)] at h
      exact absurd h (by simp)
    · have hb2 : (c2 != '.') = true := by simp [h2]
      simp only [List.dropWhile_cons, List.takeWhile_cons, bne_self_eq_false,
        Bool.false_eq_true, if_false, ite_false] at h
      rw [if_neg (by simp [Ne.symm h2])] at h
      rw [if_neg (by simp)] at h
      split at h
      · rename_i i f hi hf
        obtain rfl := Option.some.inj h
        have hi0 : i = 0 := by
          have h' := hi.symm
          simp [digitsToNat] at h'
          omega
        have hfl := digitsToNat_lt [c2] f hf
        simp only [List.length_singleton, pow_one] at hfl
        have hf9 : (f : ℚ) ≤ 9 := by exact_mod_cast Nat.lt_succ_iff.mp hfl
        have hf0 : (0 : ℚ) ≤ (f : ℚ) := by positivity
        subst hi0
        have hd : (f : ℚ) / (10 : ℚ) ^ (([c2] : List Char).length) ≤ (f : ℚ) := by
          apply div_le_self hf0
          simp
        simp only [Nat.cast_zero, zero_add, List.length_singleton, pow_one] at hd ⊢
        linarith
      · exact absurd h (by simp)
  · have hb1 : (c1 != '.') = true := by simp [h1]
    by_cases h2 : c2 = '.'
    · subst h2
      simp only [List.dropWhile_cons, List.takeWhile_cons, hb1, if_true, ite_true,
        bne_self_eq_false, Bool.false_eq_true, if_false, ite_false,
        List.takeWhile_nil, List.dropWhile_nil] at h
      rw [if_neg (by simp)] at h
      rw [if_neg (by simp)] at h
      split at h
      · rename_i i f hi hf
        obtain rfl := Option.some.inj h
        have hf0 : f = 0 := by
          have h' := hf.symm
          simp [digitsToNat] at h'
          omega
        have hil := digitsToNat_lt [c1] i hi
        simp only [List.length_singleton, pow_one] at hil
        have hi9 : (i : ℚ) ≤ 9 := by exact_mod_cast Nat.lt_succ_iff.mp hil
        subst hf0
        simp only [Nat.cast_zero, List.length_nil, pow_zero, zero_div, add_zero]
        linarith
      · exact absurd h (by simp)
    · have hb2 : (c2 != '.') = true := by simp [h2]
      simp only [List.dropWhile_cons, List.takeWhile_cons, hb1, hb2, if_true, ite_true,
        List.takeWhile_nil, List.dropWhile_nil] at h
      split at h
      · exact absurd h (by simp)
      · cases hd : digitsToNat [c1, c2] with
        | none => rw [hd] at h; exact absurd h (by simp)
        | some n =>
          rw [hd] at h
          obtain rfl : (n : ℚ) = q := by simpa using h
          have hlt := digitsToNat_lt [c1, c2] n hd
          have h100 : n < 100 := by simpa using hlt
          exact_mod_cast Nat.lt_succ_iff.mp h100

theorem pyFloat_decimal_le (c1 c2 : Char) (q : ℚ)
    (h : pyFloat [c1, '.', c2] = some q) : q ≤ 99 / 10 := by
  unfold pyFloat at h
  dsimp only at h
  by_cases h1 : c1 = '.'
  · subst h1
    simp only [List.dropWhile_cons, List.takeWhile_cons, bne_self_eq_false,
      Bool.false_eq_true, if_false, ite_false] at h
    rw [if_pos (by simp)] at h
    exact absurd h (by simp)
  · have hb1 : (c1 != '.') = true := by simp [h1]
    by_cases h2 : c2 = '.'
    · subst h2
      simp only [List.dropWhile_cons, List.takeWhile_cons, hb1, if_true, ite_true,
        bne_self_eq_false, Bool.false_eq_true, if_false, ite_false] at h
      rw [if_pos (by simp)] at h
      exact absurd h (by simp)
    · simp only [List.dropWhile_cons, List.takeWhile_cons, hb1, if_true, ite_true,
        bne_self_eq_false, Bool.false_eq_true, if_false, ite_false] at h
      rw [if_neg (by simp [Ne.symm h2])] at h
      rw [if_neg (by simp)] at h
      split at h
      · rename_i i f hi hf
        obtain rfl := Option.some.inj h
        have hil := digitsToNat_lt [c1] i hi
        have hfl := digitsToNat_lt [c2] f hf
        simp only [List.length_singleton, pow_one] at hil hfl
        have hi9 : (i : ℚ) ≤ 9 := by exact_mod_cast Nat.lt_succ_iff.mp hil
        have hf9 : (f : ℚ) ≤ 9 := by exact_mod_cast Nat.lt_succ_iff.mp hfl
        have hf0 : (0 : ℚ) ≤ (f : ℚ) := by positivity
        have hfrac : (f : ℚ) / (10 : ℚ) ^ (([c2] : List Char).length) ≤ 9 / 10 := by
          simp only [List.length_singleton, pow_one]
          gcongr
        simp only [List.length_singleton] at hfrac ⊢
        linarith
      · exact absurd h (by simp)

/-- The branch expression of `extractScoreAux` is bounded by `9.9` for every
capture the pattern can produce. -/
def PatBound (p : RE × ScoreScale) : Prop :=
  ∀ g q, CapOf true p.1 g → pyFloat g = some q →
    (if g.contains '%' || p.2 == ScoreScale.percent then q / 100
     else if g.contains '/' || p.2 == ScoreScale.tenths then q / 10
     else q) ≤ 99 / 10

theorem patBound_decimal (pre : RE × ScoreScale)
    (hshape : ∀ g, CapOf true pre.1 g → ∃ c1 c2, g = [c1, '.', c2]) :
    PatBound pre := by
  intro g q hcap hq
  obtain ⟨c1, c2, rfl⟩ := hshape g hcap
  have hb := pyFloat_decimal_le c1 c2 q hq
  have h0 := pyFloat_nonneg _ _ hq
  have h100 : q / 100 ≤ q := div_le_self h0 (by norm_num)
  have h10 : q / 10 ≤ q := div_le_self h0 (by norm_num)
  split_ifs <;> linarith

theorem patBound_single (pre : RE × ScoreScale)
    (hshape : ∀ g, CapOf true pre.1 g → ∃ c, g = [c]) :
    PatBound pre := by
  intro g q hcap hq
  obtain ⟨c, rfl⟩ := hshape g hcap
  have hb := pyFloat_single_le c q hq
  have h0 := pyFloat_nonneg _ _ hq
  have h100 : q / 100 ≤ q := div_le_self h0 (by norm_num)
  have h10 : q / 10 ≤ q := div_le_self h0 (by norm_num)
  split_ifs <;> linarith

theorem patBound_percent (pre : RE)
    (hshape : ∀ g, CapOf true pre g → ∃ c1 c2, g = [c1, c2]) :
    PatBound (pre, ScoreScale.percent) := by
  intro g q hcap hq
  obtain ⟨c1, c2, rfl⟩ := hshape g hcap
  have hb := pyFloat_pair_le c1 c2 q hq
  have hcond : (([c1, c2] : List Char).contains '%' ||
      ((ScoreScale.percent : ScoreScale) == ScoreScale.percent)) = true := by
    simp
  rw [if_pos hcond]
  linarith

theorem capOf_pat1 (g : List Char)
    (h : CapOf true (rseq [rlit "compliance score", nonDigitStar, decimalGroup]) g) :
    ∃ c1 c2, g = [c1, '.', c2] := by
  simp only [rseq, List.foldr, nonDigitStar, decimalGroup, CapOf, false_or, or_false] at h
  exact gmatch_decimal_shape g h

theorem capOf_pat2 (g : List Char)
    (h : CapOf true (rseq [rlit "score", nonDigitStar, decimalGroup, nonDigitStar,
      rlit "/", nonDigitStar, rlit "1.0"]) g) :
    ∃ c1 c2, g = [c1, '.', c2] := by
  simp only [rseq, List.foldr, nonDigitStar, decimalGroup, CapOf, false_or, or_false] at h
  exact gmatch_decimal_shape g h

theorem capOf_pat3 (g : List Char)
    (h : CapOf true (rseq [rlit "score", nonDigitStar, RE.group rdigit, rlit "/10"]) g) :
    ∃ c, g = [c] := by
  simp only [rseq, List.foldr, nonDigitStar, CapOf, false_or, or_false] at h
  exact gmatch_digit_shape g h

theorem capOf_pat4 (g : List Char)
    (h : CapOf true (rseq [RE.group (rseq [rdigit, rdigit]), rlit "%"]) g) :
    ∃ c1 c2, g = [c1, c2] := by
  simp only [rseq, List.foldr, CapOf, false_or, or_false] at h
  exact gmatch_two_digits_shape g h

theorem capOf_pat5 (g : List Char)
    (h : CapOf true (rseq [rlit "compliance", nonDigitStar, decimalGroup]) g) :
    ∃ c1 c2, g = [c1, '.', c2] := by
  simp only [rseq, List.foldr, nonDigitStar, decimalGroup, CapOf, false_or, or_false] at h
  exact gmatch_decimal_shape g h

theorem capOf_pat6 (g : List Char)
    (h : CapOf true (rseq [rlit "score", nonDigitStar, decimalGroup]) g) :
    ∃ c1 c2, g = [c1, '.', c2] := by
  simp only [rseq, List.foldr, nonDigitStar, decimalGroup, CapOf, false_or, or_false] at h
  exact gmatch_decimal_shape g h

theorem score_patterns_bounded : ∀ p ∈ score_patterns, PatBound p := by
  intro p hp
  simp only [score_patterns, List.mem_cons, List.not_mem_nil, or_false] at hp
  rcases hp with rfl | rfl | rfl | rfl | rfl | rfl
  · exact patBound_decimal _ capOf_pat1
  · exact patBound_decimal _ capOf_pat2
  · exact patBound_single _ capOf_pat3
  · exact patBound_percent _ capOf_pat4
  · exact patBound_decimal _ capOf_pat5
  · exact patBound_decimal _ capOf_pat6

theorem extractScoreAux_le (t : List Char) (pats : List (RE × ScoreScale))
    (hb : ∀ p ∈ pats, PatBound p) : extractScoreAux t pats ≤ 99 / 10 := by
  induction pats with
  | nil => norm_num [extractScoreAux]
  | cons p rest ih =>
    obtain ⟨pre, scale⟩ := p
    unfold extractScoreAux
    have hrest : ∀ p ∈ rest, PatBound p := fun p hp => hb p (List.mem_cons_of_mem _ hp)
    cases hs : searchGroup true pre t with
    | none => exact ih hrest
    | some g =>
      dsimp only
      cases hq : pyFloat g with
      | none => exact ih hrest
      | some q =>
        have hcap := searchGroup_capture true pre t g hs
        exact hb (pre, scale) (List.mem_cons_self _ _) g q hcap hq


/-- Every value the `_extract_score` pattern loop can return is
nonnegative. -/
theorem extractScoreAux_nonneg (t : List Char) (pats : List (RE × ScoreScale)) :
    0 ≤ extractScoreAux t pats := by
  induction pats with
  | nil => norm_num [extractScoreAux]
  | cons ps rest ih =>
    obtain ⟨p, scale⟩ := ps
    unfold extractScoreAux
    split
    · rename_i g hg
      split
      · rename_i q hq
        have hq0 : 0 ≤ q := pyFloat_nonneg _ _ hq
        split_ifs
        · exact div_nonneg hq0 (by norm_num)
        · exact div_nonneg hq0 (by norm_num)
        · exact hq0
      · exact ih
    · exact ih

/-- **C6 counterexample**: `compliance score: 9.9` extracts `9.9`, outside
the claimed interval `[0.0, 1.0]` — the decimal templates capture any
`[0-9]\.[0-9]` group and return it unscaled. -/
theorem c6_extracted_score_can_exceed_one :
    extract_score "compliance score: 9.9" = 99 / 10 ∧
    ¬ (extract_score "compliance score: 9.9" ≤ 1) := by
  have h : extract_score "compliance score: 9.9" = 99 / 10 := by with_unfolding_all rfl
  refine ⟨h, ?_⟩
  rw [h]
  norm_num

/-- **C6 (amended)**: `extract_score` is total (every exception path is
internal: a failed `float` parse just moves to the next template), always
lands in `[0, 9.9]`, and defaults to `0.5` when no pattern matches; but the
upper bound `1.0` claimed by the spec does not hold — the true reachable
range is bounded by `9.9` (a captured `[0-9]\\.[0-9]` group returned
unscaled), and `9.9` itself is attained (see the counterexample). -/
theorem c6_extract_score_nonneg_total :
    (∀ s : String, 0 ≤ extract_score s ∧ extract_score s ≤ 99 / 10) ∧
    extract_score "The assessment is purely qualitative" = 1 / 2 := by
  constructor
  · intro s
    exact ⟨extractScoreAux_nonneg _ _, extractScoreAux_le _ _ score_patterns_bounded⟩
  · with_unfolding_all rfl

/-- The grouping of gaps by category pairs each key with exactly the filter
of the gap list on that key. -/
theorem gaps_by_category_mem (compliance_gaps : List ComplianceGap) (c : String)
    (gs : List ComplianceGap) (h : (c, gs) ∈ gaps_by_category compliance_gaps) :
    gs = compliance_gaps.filter (fun g => g.category == c) := by
  unfold gaps_by_category at h
  obtain ⟨c', _, heq⟩ := List.mem_map.mp h
  obtain ⟨rfl, rfl⟩ := Prod.mk.inj heq
  rfl

/-- Every recommendation emitted by the per-category loop carries the
priority computed from its own category's gap group. -/
theorem recLoop_priority (A : ComplianceAnalyzer) (system_type : String) :
    ∀ (groups : List (String × List ComplianceGap)) (recs : List Recommendation),
      generateRecommendationsLoop A system_type groups = Except.ok recs →
      ∀ rec ∈ recs, ∃ gs, (rec.category, gs) ∈ groups ∧
        rec.priority =
          (if gs.any (fun g => g.severity == "high") then "high" else "medium") := by
  intro groups
  induction groups with
  | nil =>
    intro recs h rec hr
    unfold generateRecommendationsLoop at h
    obtain rfl := Except.ok.inj h
    exact absurd hr (by simp)
  | cons grp rest ih =>
    obtain ⟨category, gaps⟩ := grp
    intro recs h rec hr
    unfold generateRecommendationsLoop at h
    dsimp only at h
    split at h
    · exact absurd h (by simp)
    · split at h
      · exact absurd h (by simp)
      · rename_i others hothers
        obtain rfl := Except.ok.inj h
        rcases List.mem_append.mp hr with h1 | h2
        · obtain ⟨item, _, rfl⟩ := List.mem_map.mp h1
          exact ⟨gaps, List.mem_cons_self _ _, rfl⟩
        · obtain ⟨gs, hgs, hpr⟩ := ih others hothers rec h2
          exact ⟨gs, List.mem_cons_of_mem _ hgs, hpr⟩

/-- **C9**: gaps are extracted only for categories scoring strictly below
`0.7`; each gap's severity follows the score bands (`< 0.3` high, `< 0.5`
medium, else low); and every generated recommendation has priority `"high"`
exactly when some gap of its category has severity `"high"`, else
`"medium"`. -/
theorem c9_gap_severity_and_recommendation_priority :
    (∀ (detailed : List (String × CategoryAnalysis)) (system_type : String)
        (g : ComplianceGap), g ∈ identify_compliance_gaps detailed system_type →
        detailed.any (fun p =>
          p.1 == g.category && decide (p.2.score < 7 / 10) &&
          (g.severity ==
            (if p.2.score < 3 / 10 then "high"
             else if p.2.score < 1 / 2 then "medium" else "low"))) = true) ∧
    (∀ (A : ComplianceAnalyzer) (compliance_gaps : List ComplianceGap)
        (system_type : String) (recs : List Recommendation),
        generate_recommendations A compliance_gaps system_type = Except.ok recs →
        ∀ rec ∈ recs,
          rec.priority =
            (if (compliance_gaps.filter fun g => g.category == rec.category).any
                (fun g => g.severity == "high") then "high" else "medium")) := by
  constructor
  · intro detailed system_type g
    induction detailed with
    | nil =>
      intro h
      simp [identify_compliance_gaps] at h
    | cons p rest ih =>
      obtain ⟨category, analysis⟩ := p
      intro h
      simp only [identify_compliance_gaps] at h
      rcases List.mem_append.mp h with h1 | h2
      · by_cases hs : analysis.score < 7 / 10
        · rw [if_pos hs] at h1
          obtain ⟨gap_text, _, rfl⟩ := List.mem_map.mp h1
          simp [List.any_cons, hs, gapSeverity]
        · rw [if_neg hs] at h1
          exact absurd h1 (by simp)
      · rw [List.any_cons, ih h2, Bool.or_true]
  · intro A compliance_gaps system_type recs h rec hr
    obtain ⟨gs, hmem, hpr⟩ :=
      recLoop_priority A system_type (gaps_by_category compliance_gaps) recs h rec hr
    rw [gaps_by_category_mem compliance_gaps rec.category gs hmem] at hpr
    exact hpr

/-- Example input to gap extraction: one category scoring `0.25` whose
narrative contains a gap sentence. -/
def exampleDetailed : List (String × CategoryAnalysis) :=
  [("transparency",
    { category := "transparency", system_type := "limited-risk", score := 1 / 4,
      analysis := "There is a gap in documentation." })]

/-- The single gap extracted from `exampleDetailed`. -/
def exampleGap : ComplianceGap :=
  { category := "transparency", description := "gap in documentation.", severity := "high" }

/-- Example input to recommendation generation: two gaps of one category,
one of them high severity. -/
def exampleRecGaps : List ComplianceGap :=
  [{ category := "transparency", description := "lack of logging", severity := "high" },
   { category := "transparency", description := "a documentation gap", severity := "medium" }]

/-- The recommendations generated for `exampleRecGaps` under a canned
bullet-list oracle response. -/
def exampleRecs : List Recommendation :=
  match generate_recommendations (constAnalyzer "1. Add logging.\n2. Improve documentation.")
      exampleRecGaps "limited-risk" with
  | Except.ok l => l
  | Except.error _ => []

/-- **C9 witness**: both conjuncts at concrete inputs — the `0.25`-scoring
category yields a high-severity gap, and the generated recommendations for
a category with a high-severity gap carry priority `"high"`. -/
theorem c9_gap_severity_and_recommendation_priority_witness :
    (exampleDetailed.any (fun p =>
      p.1 == exampleGap.category && decide (p.2.score < 7 / 10) &&
      (exampleGap.severity ==
        (if p.2.score < 3 / 10 then "high"
         else if p.2.score < 1 / 2 then "medium" else "low"))) = true) ∧
    (exampleRecs.headD default).priority =
      (if (exampleRecGaps.filter fun g =>
            g.category == (exampleRecs.headD default).category).any
          (fun g => g.severity == "high") then "high" else "medium") := by
  constructor
  · have hl : identify_compliance_gaps exampleDetailed "limited-risk" = [exampleGap] := by
      with_unfolding_all rfl
    exact c9_gap_severity_and_recommendation_priority.1 exampleDetailed "limited-risk"
      exampleGap (by rw [hl]; exact List.mem_singleton.mpr rfl)
  · refine c9_gap_severity_and_recommendation_priority.2
      (constAnalyzer "1. Add logging.\n2. Improve documentation.") exampleRecGaps
      "limited-risk" exampleRecs (by with_unfolding_all rfl) (exampleRecs.headD default) ?_
    have hr : exampleRecs =
        [{ category := "transparency", recommendation := "Add logging.", priority := "high" },
         { category := "transparency", recommendation := "Improve documentation.",
           priority := "high" }] := by
      with_unfolding_all rfl
    rw [hr]
    exact List.mem_cons_self _ _

end EUAIAct
